import Mathlib

/-!
Verification development for the ATP SDK rental settlement core.

The definitions below are a shallow embedding of the TypeScript sources:
amounts in USD and HBAR are rationals, tinybar amounts are integers,
timestamps are natural numbers of milliseconds, and every external call
(agent resolver, exchange-rate oracle, ledger transfer, HCS audit log)
is modelled by an explicit outcome supplied in an environment record.
-/

namespace ATP

/-- Converts an HBAR amount to tinybars: the source computes
Math.round(hbar * 1e8), and Math.round rounds half toward positive
infinity, which is floor(x + 1/2). -/
def toTinybars (hbar : ℚ) : ℤ :=
  ⌊hbar * 100000000 + 1/2⌋

/-- TRANSACTION_SPLITS.creator_royalty (5%). -/
def creator_royalty : ℚ := 5/100

/-- TRANSACTION_SPLITS.network_contribution (2%). -/
def network_contribution : ℚ := 2/100

/-- TRANSACTION_SPLITS.atp_treasury (1%). -/
def atp_treasury : ℚ := 1/100

/-- TRANSACTION_SPLITS.owner_revenue (92%). -/
def owner_revenue : ℚ := 92/100

/-- Rental type: flash, session or term. -/
inductive RentalType
  | flash
  | session
  | term
deriving DecidableEq, Repr

/-- Rental status values. -/
inductive RentalStatus
  | active
  | completed
  | terminated
  | disputed
  | timed_out
deriving DecidableEq, Repr

/-- The statuses accepted by RentalStore.complete. -/
inductive TerminalStatus
  | completed
  | terminated
  | timed_out
deriving DecidableEq, Repr

/-- View of a terminal status as a rental status. -/
def TerminalStatus.toStatus : TerminalStatus → RentalStatus
  | .completed => .completed
  | .terminated => .terminated
  | .timed_out => .timed_out

/-- A stored rental record (StoredRental in rental-store.ts).  The pricing
snapshot and constraint payloads are opaque to the settlement logic and are
not modelled.  Timestamps are milliseconds since epoch. -/
structure StoredRental where
  rentalId : String
  agentId : String
  renter : String
  owner : String
  rentalType : RentalType
  stakeUsd : ℚ
  stakeHbar : ℚ
  usageBufferUsd : ℚ
  usageBufferHbar : ℚ
  escrowAccount : String
  escrowKey : Option String
  startedAt : ℕ
  endedAt : Option ℕ
  status : RentalStatus
  timeoutAt : Option ℕ
  settlementDeadline : Option ℕ
deriving DecidableEq, Repr

/-- The in-memory rental map, keyed by rental id (a JS Map keeps insertion
order; set overwrites in place or appends). -/
abbrev RentalMap := List (String × StoredRental)

/-- Map lookup by rental id. -/
def lookupRental : RentalMap → String → Option StoredRental
  | [], _ => none
  | (k, r) :: rest, id => if k = id then some r else lookupRental rest id

/-- Map set: overwrite an existing key in place, else append. -/
def setRental : RentalMap → String → StoredRental → RentalMap
  | [], id, r => [(id, r)]
  | (k, x) :: rest, id, r =>
      if k = id then (id, r) :: rest else (k, x) :: setRental rest id r

/-- RentalStore state: the in-memory map and the persisted snapshot
(the file written by save; put/remove/complete each call save, which
atomically replaces the snapshot with the whole map). -/
structure RentalStore where
  rentals : RentalMap
  persisted : RentalMap
deriving DecidableEq, Repr

/-- RentalStore.save: serialize the whole map and atomically replace the
snapshot file. -/
def RentalStore.save (st : RentalStore) : RentalStore :=
  { st with persisted := st.rentals }

/-- RentalStore.put. -/
def RentalStore.put (st : RentalStore) (r : StoredRental) : RentalStore :=
  RentalStore.save { st with rentals := setRental st.rentals r.rentalId r }

/-- RentalStore.get. -/
def RentalStore.get (st : RentalStore) (id : String) : Option StoredRental :=
  lookupRental st.rentals id

/-- RentalStore.getActive. -/
def RentalStore.getActive (st : RentalStore) : List StoredRental :=
  (st.rentals.map Prod.snd).filter (fun r => decide (r.status = .active))

/-- RentalStore.complete: mark the rental with a terminal status, set
endedAt, delete the escrow key, and save.  A missing id is a no-op. -/
def RentalStore.complete (st : RentalStore) (id : String)
    (ts : TerminalStatus) (now : ℕ) : RentalStore :=
  match lookupRental st.rentals id with
  | none => st
  | some r =>
      let r' := { r with status := ts.toStatus
                       , endedAt := some now
                       , escrowKey := none }
      RentalStore.save { st with rentals := setRental st.rentals id r' }

/-- Grace periods by rental type, in milliseconds (TIMEOUT_GRACE_MS). -/
def TIMEOUT_GRACE_MS : RentalType → ℕ
  | .flash => 15 * 60 * 1000
  | .session => 60 * 60 * 1000
  | .term => 24 * 60 * 60 * 1000

/-- Secondary settlement window after timeout (SETTLEMENT_WINDOW_MS). -/
def SETTLEMENT_WINDOW_MS : ℕ := 24 * 60 * 60 * 1000

/-- Dead escrow cleanup window (DEAD_ESCROW_MS). -/
def DEAD_ESCROW_MS : ℕ := 7 * 24 * 60 * 60 * 1000

/-- Error taxonomy of the rental manager: each constructor stands for one
family of thrown Error messages in the source. -/
inductive MgrError
  | invalidInput (which : String)
  | notFound (id : String)
  | notAuthorized
  | noEscrowKey
  | noTimeoutConfigured
  | notActive
  | notTimedOut
  | dependencyFailed (which : String)
deriving DecidableEq, Repr

/-- Parties credited by a settlement transfer. -/
inductive Party
  | owner
  | creator
  | network
  | treasury
  | renter
deriving DecidableEq, Repr

/-- A single multi-output escrow transfer: the debit taken from the escrow
account and the list of credits in the order they are added to the
TransferTransaction. -/
structure Settlement where
  escrowDebit : ℤ
  credits : List (Party × ℤ)
deriving DecidableEq, Repr

/-- Total tinybars credited to one party by a settlement. -/
def creditTo (s : Settlement) (p : Party) : ℤ :=
  ((s.credits.filter (fun c => decide (c.1 = p))).map Prod.snd).sum

/-- Total tinybars credited across all outputs of a settlement. -/
def creditSum (s : Settlement) : ℤ :=
  (s.credits.map Prod.snd).sum

/-- Result of a paid settlement (complete or terminate): the USD amount
charged against the buffer and the escrow transfer. -/
structure PaidResult where
  chargedUsd : ℚ
  sett : Settlement
deriving DecidableEq, Repr

/-- Result of the agent resolver chain. -/
structure AgentInfo where
  owner : String
  hcsTopicId : String
  creator : String
deriving DecidableEq, Repr

/-- Split a character list on the dot character. -/
def splitDots : List Char → List (List Char)
  | [] => [[]]
  | c :: rest =>
      let r := splitDots rest
      if c = '.' then [] :: r
      else
        match r with
        | [] => [[c]]
        | h :: t => (c :: h) :: t

/-- A non-empty all-digit character group. -/
def isDigitGroup (l : List Char) : Bool :=
  decide (l ≠ []) && l.all Char.isDigit

/-- Hedera entity id format check, the regex digits.digits.digits of
validateEntityId: exactly three non-empty all-digit groups separated by
dots. -/
def isValidEntityId (s : String) : Bool :=
  match splitDots s.data with
  | [a, b, c] => isDigitGroup a && isDigitGroup b && isDigitGroup c
  | _ => false

/-- RentalManager.getStatus: validate the id, look in the persistent store
first, then fall back to the indexer (whose answer, if any, is supplied as
an explicit outcome). -/
def getStatusOp (st : RentalStore) (id : String)
    (indexerResult : Option StoredRental) : Except MgrError StoredRental :=
  if id.length = 0 ∨ id.length > 100 then .error (.invalidInput "rentalId")
  else
    match st.get id with
    | some r => .ok r
    | none =>
        match indexerResult with
        | some r => .ok r
        | none => .error (.notFound id)

/-- Parameters of RentalManager.initiate.  Durations are modelled in whole
minutes. -/
structure InitiateParams where
  agentId : String
  rentalType : RentalType
  stakeUsd : ℚ
  bufferUsd : ℚ
  expectedDurationMinutes : Option ℕ
deriving DecidableEq, Repr

/-- Outcomes of the external calls made by initiate, plus the clock and the
generated identifiers.  A none or false outcome is a failed call. -/
structure InitiateEnv where
  resolveResult : Option AgentInfo
  rateResult : Option ℚ
  escrowAccountCreated : Option String
  escrowKeyGenerated : String
  fundingOk : Bool
  hcsLogOk : Bool
  now : ℕ
  rentalId : String
deriving DecidableEq, Repr

/-- The duration validation of initiate: rejected when given and zero or
above one year of minutes. -/
def durationInvalid : Option ℕ → Bool
  | none => false
  | some d => decide (d = 0) || decide (d > 525600)

/-- RentalManager.initiate.  Returns the possibly-updated store together
with the result; every failure path returns the store unchanged, and the
store write is the last step before returning the rental. -/
def initiateOp (operatorId : String) (st : RentalStore) (p : InitiateParams)
    (env : InitiateEnv) : RentalStore × Except MgrError StoredRental :=
  if ¬ isValidEntityId p.agentId then (st, .error (.invalidInput "agentId"))
  else if p.stakeUsd ≤ 0 then (st, .error (.invalidInput "stakeUsd"))
  else if p.bufferUsd ≤ 0 then (st, .error (.invalidInput "bufferUsd"))
  else if p.stakeUsd > 1000000 ∨ p.bufferUsd > 1000000 then
    (st, .error (.invalidInput "safetyLimit"))
  else if durationInvalid p.expectedDurationMinutes then
    (st, .error (.invalidInput "expectedDurationMinutes"))
  else
    match env.resolveResult with
    | none => (st, .error (.dependencyFailed "resolveAgent"))
    | some agent =>
        match env.rateResult with
        | none => (st, .error (.dependencyFailed "exchangeRate"))
        | some hbarRate =>
            let stakeHbar := p.stakeUsd / hbarRate
            let bufferHbar := p.bufferUsd / hbarRate
            match env.escrowAccountCreated with
            | none => (st, .error (.dependencyFailed "escrowAccountCreate"))
            | some escrowAccountId =>
                if ¬ env.fundingOk then
                  (st, .error (.dependencyFailed "escrowFunding"))
                else if ¬ env.hcsLogOk then
                  (st, .error (.dependencyFailed "hcsLog"))
                else
                  let expectedDurationMs :=
                    (p.expectedDurationMinutes.getD 0) * 60 * 1000
                  let timeoutMs := env.now + expectedDurationMs
                    + TIMEOUT_GRACE_MS p.rentalType
                  let settlementDeadlineMs := timeoutMs + SETTLEMENT_WINDOW_MS
                  let rental : StoredRental :=
                    { rentalId := env.rentalId
                    , agentId := p.agentId
                    , renter := operatorId
                    , owner := agent.owner
                    , rentalType := p.rentalType
                    , stakeUsd := p.stakeUsd
                    , stakeHbar := stakeHbar
                    , usageBufferUsd := p.bufferUsd
                    , usageBufferHbar := bufferHbar
                    , escrowAccount := escrowAccountId
                    , escrowKey := some env.escrowKeyGenerated
                    , startedAt := env.now
                    , endedAt := none
                    , status := .active
                    , timeoutAt := some timeoutMs
                    , settlementDeadline := some settlementDeadlineMs }
                  (st.put rental, .ok rental)

/-- Outcomes of the external calls made by terminate, complete and
claimTimeout, plus the clock. -/
structure SettleEnv where
  indexerResult : Option StoredRental
  resolveResult : Option AgentInfo
  rateResult : Option ℚ
  transferOk : Bool
  hcsLogOk : Bool
  now : ℕ
deriving DecidableEq, Repr

/-- The escrow transfer assembled by terminate: each of the four shares is
the charged HBAR amount times its split, rounded to tinybars, and the
renter refund is the whole escrow minus those shares. -/
def terminateSettlement (r : StoredRental) (hbarRate : ℚ) : PaidResult :=
  let baseFee : ℚ := if r.rentalType = .flash then 7/100 else 5
  let totalChargedUsd := min baseFee r.usageBufferUsd
  let totalEscrowHbar := r.stakeHbar + r.usageBufferHbar
  let chargedHbar := totalChargedUsd / hbarRate
  let totalEscrowTb := toTinybars totalEscrowHbar
  let ownerTb := toTinybars (chargedHbar * owner_revenue)
  let creatorTb := toTinybars (chargedHbar * creator_royalty)
  let networkTb := toTinybars (chargedHbar * network_contribution)
  let treasuryTb := toTinybars (chargedHbar * atp_treasury)
  let renterRefundTb := totalEscrowTb - ownerTb - creatorTb - networkTb - treasuryTb
  { chargedUsd := totalChargedUsd
  , sett :=
    { escrowDebit := totalEscrowTb
    , credits := [(.owner, ownerTb), (.creator, creatorTb),
        (.network, networkTb), (.treasury, treasuryTb),
        (.renter, renterRefundTb)] } }

/-- RentalManager.terminate.  Every failure path returns the store
unchanged; on success the store marks the rental terminated and scrubs the
escrow key. -/
def terminateOp (operatorId : String) (st : RentalStore) (id : String)
    (reason : Option String) (env : SettleEnv) :
    RentalStore × Except MgrError PaidResult :=
  if id.length = 0 ∨ id.length > 100 then
    (st, .error (.invalidInput "rentalId"))
  else if (reason.getD "").length > 1000 then
    (st, .error (.invalidInput "reason"))
  else
    match getStatusOp st id env.indexerResult with
    | .error e => (st, .error e)
    | .ok r =>
        if r.renter ≠ operatorId ∧ r.owner ≠ operatorId then
          (st, .error .notAuthorized)
        else
          match env.resolveResult with
          | none => (st, .error (.dependencyFailed "resolveAgent"))
          | some _agent =>
              match r.escrowKey with
              | none => (st, .error .noEscrowKey)
              | some _key =>
                  match env.rateResult with
                  | none => (st, .error (.dependencyFailed "exchangeRate"))
                  | some hbarRate =>
                      let res := terminateSettlement r hbarRate
                      if ¬ env.transferOk then
                        (st, .error (.dependencyFailed "settlementTransfer"))
                      else if ¬ env.hcsLogOk then
                        (st, .error (.dependencyFailed "hcsLog"))
                      else
                        (st.complete id .terminated env.now, .ok res)

/-- The usage argument of complete. -/
structure UsageReport where
  totalInstructions : ℚ
  totalTokens : ℚ
  totalCostUsd : ℚ
  uptimePercentage : Option ℚ
deriving DecidableEq, Repr

/-- The escrow transfer assembled by complete: the reported cost is capped
at the buffer, the creator, network and treasury shares and the renter
outputs are rounded to tinybars, and the owner output is the whole escrow
minus all other outputs, so the owner absorbs the rounding dust. -/
def completeSettlement (r : StoredRental) (totalCostUsd hbarRate : ℚ) :
    PaidResult :=
  let totalCharged := min totalCostUsd r.usageBufferUsd
  let creatorRoyaltyUsd := totalCharged * creator_royalty
  let networkContributionUsd := totalCharged * network_contribution
  let atpTreasuryUsd := totalCharged * atp_treasury
  let creatorHbar := creatorRoyaltyUsd / hbarRate
  let networkHbar := networkContributionUsd / hbarRate
  let treasuryHbar := atpTreasuryUsd / hbarRate
  let unusedBufferHbar := max 0 (r.usageBufferUsd - totalCharged) / hbarRate
  let stakeReturnHbar := r.stakeHbar
  let creatorTb := toTinybars creatorHbar
  let networkTb := toTinybars networkHbar
  let treasuryTb := toTinybars treasuryHbar
  let stakeReturnTb := toTinybars stakeReturnHbar
  let unusedBufferTb := toTinybars unusedBufferHbar
  let totalEscrowTb := toTinybars (r.stakeHbar + r.usageBufferHbar)
  let ownerTb := totalEscrowTb - creatorTb - networkTb - treasuryTb
    - stakeReturnTb - unusedBufferTb
  { chargedUsd := totalCharged
  , sett :=
    { escrowDebit := totalEscrowTb
    , credits := [(.owner, ownerTb), (.creator, creatorTb),
        (.network, networkTb), (.treasury, treasuryTb),
        (.renter, stakeReturnTb + unusedBufferTb)] } }

/-- RentalManager.complete.  Validates the usage report, caps the charge at
the buffer, executes the settlement transfer and marks the rental
completed; every failure path returns the store unchanged. -/
def completeOp (st : RentalStore) (id : String) (usage : UsageReport)
    (env : SettleEnv) : RentalStore × Except MgrError PaidResult :=
  if id.length = 0 then (st, .error (.invalidInput "rentalId"))
  else if usage.totalInstructions < 0 then
    (st, .error (.invalidInput "totalInstructions"))
  else if usage.totalTokens < 0 then
    (st, .error (.invalidInput "totalTokens"))
  else if usage.totalCostUsd < 0 then
    (st, .error (.invalidInput "totalCostUsd"))
  else if (match usage.uptimePercentage with
           | some u => decide (u < 0) || decide (u > 100)
           | none => false) then
    (st, .error (.invalidInput "uptimePercentage"))
  else
    match getStatusOp st id env.indexerResult with
    | .error e => (st, .error e)
    | .ok r =>
        match env.resolveResult with
        | none => (st, .error (.dependencyFailed "resolveAgent"))
        | some _agent =>
            match env.rateResult with
            | none => (st, .error (.dependencyFailed "exchangeRate"))
            | some hbarRate =>
                match r.escrowKey with
                | none => (st, .error .noEscrowKey)
                | some _key =>
                    let res := completeSettlement r usage.totalCostUsd hbarRate
                    if ¬ env.transferOk then
                      (st, .error (.dependencyFailed "distributionTransfer"))
                    else if ¬ env.hcsLogOk then
                      (st, .error (.dependencyFailed "hcsLog"))
                    else
                      (st.complete id .completed env.now, .ok res)

/-- The escrow transfer assembled by claimTimeout: a minimal network plus
treasury fee computed from the usage buffer, with the rest of the escrow
refunded to the renter. -/
def timeoutSettlement (r : StoredRental) (hbarRate : ℚ) : Settlement :=
  let minimalFeeUsd := r.usageBufferUsd * (atp_treasury + network_contribution)
  let totalEscrowHbar := r.stakeHbar + r.usageBufferHbar
  let networkTb := toTinybars ((minimalFeeUsd * network_contribution
    / (atp_treasury + network_contribution)) / hbarRate)
  let treasuryTb := toTinybars ((minimalFeeUsd * atp_treasury
    / (atp_treasury + network_contribution)) / hbarRate)
  let totalEscrowTb := toTinybars totalEscrowHbar
  let renterRefundTb := totalEscrowTb - networkTb - treasuryTb
  { escrowDebit := totalEscrowTb
  , credits := [(.network, networkTb), (.treasury, treasuryTb),
      (.renter, renterRefundTb)] }

/-- RentalManager.claimTimeout.  Requires an active rental, the renter as
caller, a configured timeout that has passed, and a live escrow key; every
failure path returns the store unchanged. -/
def claimTimeoutOp (operatorId : String) (st : RentalStore) (id : String)
    (env : SettleEnv) : RentalStore × Except MgrError Settlement :=
  match getStatusOp st id env.indexerResult with
  | .error e => (st, .error e)
  | .ok r =>
      if r.status ≠ .active then (st, .error .notActive)
      else if r.renter ≠ operatorId then (st, .error .notAuthorized)
      else
        match r.timeoutAt with
        | none => (st, .error .noTimeoutConfigured)
        | some timeoutAt =>
            if env.now < timeoutAt then (st, .error .notTimedOut)
            else
              match r.escrowKey with
              | none => (st, .error .noEscrowKey)
              | some _key =>
                  match env.resolveResult with
                  | none => (st, .error (.dependencyFailed "resolveAgent"))
                  | some _agent =>
                      match env.rateResult with
                      | none => (st, .error (.dependencyFailed "exchangeRate"))
                      | some hbarRate =>
                          let s := timeoutSettlement r hbarRate
                          if ¬ env.transferOk then
                            (st, .error (.dependencyFailed "refundTransfer"))
                          else if ¬ env.hcsLogOk then
                            (st, .error (.dependencyFailed "hcsLog"))
                          else
                            (st.complete id .timed_out env.now, .ok s)

/-- RentalManager.getTimedOutRentals: active rentals whose timeout has
passed. -/
def getTimedOutRentals (st : RentalStore) (now : ℕ) : List StoredRental :=
  st.getActive.filter (fun r =>
    match r.timeoutAt with
    | none => false
    | some t => decide (now > t))

/-- RentalManager.getDeadEscrows: active rentals past the dead escrow
cleanup horizon, timeoutAt plus DEAD_ESCROW_MS. -/
def getDeadEscrows (st : RentalStore) (now : ℕ) : List StoredRental :=
  st.getActive.filter (fun r =>
    match r.timeoutAt with
    | none => false
    | some t => decide (now > t + DEAD_ESCROW_MS))

/-- Budget level reported by the BudgetMonitor. -/
inductive BudgetLevel
  | ok
  | warning
  | critical
  | exhausted
deriving DecidableEq, Repr

/-- A recorded usage event. -/
structure UsageEvent where
  timestamp : ℕ
  costUsd : ℚ
  tokens : ℚ
  instructions : ℚ
deriving DecidableEq, Repr

/-- BudgetMonitor state: configuration plus accumulated usage. -/
structure BudgetMonitor where
  bufferUsd : ℚ
  bufferHbar : ℚ
  warningThreshold : ℚ
  criticalThreshold : ℚ
  usageEvents : List UsageEvent
  totalInstructions : ℚ
  totalTokens : ℚ
  totalCostUsd : ℚ
deriving DecidableEq, Repr

/-- The BudgetMonitor constructor with its validation. -/
def mkBudgetMonitor (bufferUsd bufferHbar : ℚ)
    (warningThreshold criticalThreshold : ℚ) : Except String BudgetMonitor :=
  if bufferUsd < 0 then .error "Invalid bufferUsd"
  else if bufferHbar < 0 then .error "Invalid bufferHbar"
  else if warningThreshold < 0 ∨ warningThreshold > 1 then
    .error "Invalid warningThreshold"
  else if criticalThreshold < 0 ∨ criticalThreshold > 1 then
    .error "Invalid criticalThreshold"
  else if warningThreshold ≥ criticalThreshold then
    .error "warningThreshold must be below criticalThreshold"
  else
    .ok { bufferUsd := bufferUsd
        , bufferHbar := bufferHbar
        , warningThreshold := warningThreshold
        , criticalThreshold := criticalThreshold
        , usageEvents := []
        , totalInstructions := 0
        , totalTokens := 0
        , totalCostUsd := 0 }

/-- BudgetMonitor.recordUsage: reject negative costs and negative or
non-integer token and instruction counts, then append the event and
accumulate the totals. -/
def BudgetMonitor.recordUsage (m : BudgetMonitor)
    (costUsd tokens instructions : ℚ) (now : ℕ) :
    Except String BudgetMonitor :=
  if costUsd < 0 then .error "Invalid costUsd"
  else if tokens < 0 ∨ ¬ tokens.isInt then .error "Invalid tokens"
  else if instructions < 0 ∨ ¬ instructions.isInt then
    .error "Invalid instructions"
  else
    .ok { m with
          usageEvents := m.usageEvents
            ++ [{ timestamp := now, costUsd := costUsd, tokens := tokens
                , instructions := instructions }]
        , totalCostUsd := m.totalCostUsd + costUsd
        , totalTokens := m.totalTokens + tokens
        , totalInstructions := m.totalInstructions + instructions }

/-- Budget status returned by getStatus.  percentUsed is an Option: none
encodes the Infinity the source produces for positive usage against a zero
buffer. -/
structure BudgetStatus where
  usedUsd : ℚ
  remainingUsd : ℚ
  percentUsed : Option ℚ
  level : BudgetLevel
deriving DecidableEq, Repr

/-- BudgetMonitor.getStatus. -/
def BudgetMonitor.getStatus (m : BudgetMonitor) : BudgetStatus :=
  let usedUsd := m.totalCostUsd
  let remainingUsd := max 0 (m.bufferUsd - usedUsd)
  let percentUsed : Option ℚ :=
    if m.bufferUsd = 0 then (if usedUsd > 0 then none else some 0)
    else some (usedUsd / m.bufferUsd)
  let level : BudgetLevel :=
    match percentUsed with
    | none => .exhausted
    | some p =>
        if p ≥ 1 then .exhausted
        else if p ≥ m.criticalThreshold then .critical
        else if p ≥ m.warningThreshold then .warning
        else .ok
  { usedUsd := usedUsd, remainingUsd := remainingUsd
  , percentUsed := percentUsed, level := level }

/-- BudgetMonitor.shouldStop. -/
def BudgetMonitor.shouldStop (m : BudgetMonitor) : Bool :=
  decide (m.getStatus.level = .critical) || decide (m.getStatus.level = .exhausted)

/-- Record a whole sequence of usage events (cost, tokens, instructions)
in order, stopping at the first validation error. -/
def recordAll (m : BudgetMonitor) (evs : List (ℚ × ℚ × ℚ)) (now : ℕ) :
    Except String BudgetMonitor :=
  match evs with
  | [] => .ok m
  | (c, t, i) :: rest =>
      match m.recordUsage c t i now with
      | .error e => .error e
      | .ok m' => recordAll m' rest now

/-- Sum of the cost components of a usage event sequence. -/
def sumCosts (evs : List (ℚ × ℚ × ℚ)) : ℚ :=
  (evs.map (fun e => e.1)).sum

/-- Source tag of a cached exchange rate. -/
inductive RateSource
  | coingecko
  | binance
  | stale
deriving DecidableEq, Repr

/-- A cached exchange rate with the time it was stored. -/
structure RateCache where
  rate : ℚ
  timestamp : ℕ
  source : RateSource
deriving DecidableEq, Repr

/-- ExchangeRateService state. -/
structure ExchangeRateService where
  cache : Option RateCache
  testRate : Option ℚ
deriving DecidableEq, Repr

/-- minSanePrice: the lower bound of the plausible rate range. -/
def minSanePrice : ℚ := 1/100

/-- maxSanePrice: the upper bound of the plausible rate range. -/
def maxSanePrice : ℚ := 10

/-- cacheTtlMs: freshness window of the cache. -/
def cacheTtlMs : ℕ := 5 * 60 * 1000

/-- staleTtlMs: maximum age at which a stale cached rate may be served. -/
def staleTtlMs : ℕ := 15 * 60 * 1000

/-- A fetch from one price source: the raw network outcome (none is a
failed request or malformed body), with the sanity bound applied so that
an out-of-range value becomes a failure. -/
def sanityFetch (raw : Option ℚ) : Option ℚ :=
  match raw with
  | none => none
  | some r => if r < minSanePrice ∨ r > maxSanePrice then none else some r

/-- The fetch cascade of getRate once the fresh-cache check has failed:
CoinGecko, then Binance, then a stale cached value under staleTtlMs, then
total failure. -/
def fetchCascade (svc : ExchangeRateService) (now : ℕ)
    (coingeckoRaw binanceRaw : Option ℚ) :
    ExchangeRateService × Option ℚ :=
  match sanityFetch coingeckoRaw with
  | some r =>
      ({ svc with cache := some { rate := r, timestamp := now
                                , source := .coingecko } }, some r)
  | none =>
      match sanityFetch binanceRaw with
      | some r =>
          ({ svc with cache := some { rate := r, timestamp := now
                                    , source := .binance } }, some r)
      | none =>
          match svc.cache with
          | some c =>
              if now - c.timestamp < staleTtlMs then (svc, some c.rate)
              else (svc, none)
          | none => (svc, none)

/-- ExchangeRateService.getRate: test override, fresh cache, then the
fetch cascade.  A none result is the thrown total-failure error. -/
def ExchangeRateService.getRate (svc : ExchangeRateService) (now : ℕ)
    (coingeckoRaw binanceRaw : Option ℚ) :
    ExchangeRateService × Option ℚ :=
  match svc.testRate with
  | some t => (svc, some t)
  | none =>
      match svc.cache with
      | some c =>
          if now - c.timestamp < cacheTtlMs then (svc, some c.rate)
          else fetchCascade svc now coingeckoRaw binanceRaw
      | none => fetchCascade svc now coingeckoRaw binanceRaw

/-- ExchangeRateService.setTestRate: rejects rates outside the plausible
range. -/
def ExchangeRateService.setTestRate (svc : ExchangeRateService) (rate : ℚ) :
    Except String ExchangeRateService :=
  if rate < minSanePrice ∨ rate > maxSanePrice then
    .error "Test rate outside sane range"
  else .ok { svc with testRate := some rate }

/-- ExchangeRateService.clearTestRate. -/
def ExchangeRateService.clearTestRate (svc : ExchangeRateService) :
    ExchangeRateService :=
  { svc with testRate := none }

/-- The freshly constructed service: no cache, no test override. -/
def initialRateService : ExchangeRateService :=
  { cache := none, testRate := none }

/-- Invariant: every value held by the service, cached or overridden, lies
within the plausible range. -/
def rateServiceSane (svc : ExchangeRateService) : Prop :=
  (∀ c, svc.cache = some c → minSanePrice ≤ c.rate ∧ c.rate ≤ maxSanePrice)
    ∧ (∀ t, svc.testRate = some t → minSanePrice ≤ t ∧ t ≤ maxSanePrice)

/-- Concrete agent metadata used in the concrete scenarios below. -/
def sampleAgent : AgentInfo :=
  { owner := "0.0.2002", hcsTopicId := "0.0.777", creator := "0.0.3003" }

/-- A concrete active stored rental: stake 50 USD and buffer 100 USD at an
initiation rate of 0.10 USD per HBAR, so 500 HBAR stake and 1000 HBAR
buffer, with a timeout at t = 1000000 ms. -/
def sampleRental : StoredRental :=
  { rentalId := "rental_1"
  , agentId := "0.0.12345"
  , renter := "0.0.1001"
  , owner := "0.0.2002"
  , rentalType := .session
  , stakeUsd := 50
  , stakeHbar := 500
  , usageBufferUsd := 100
  , usageBufferHbar := 1000
  , escrowAccount := "0.0.9999"
  , escrowKey := some "aabb"
  , startedAt := 0
  , endedAt := none
  , status := .active
  , timeoutAt := some 1000000
  , settlementDeadline := some 87400000 }

/-- A store holding exactly the sample rental, already persisted. -/
def sampleStore : RentalStore :=
  { rentals := [("rental_1", sampleRental)]
  , persisted := [("rental_1", sampleRental)] }

/-- A usage report of 30 USD against the 100 USD buffer. -/
def sampleUsage : UsageReport :=
  { totalInstructions := 10, totalTokens := 1000, totalCostUsd := 30
  , uptimePercentage := none }

/-- A settlement environment where every external call succeeds, the rate
is 0.10 USD per HBAR, and the clock reads exactly the sample timeout. -/
def sampleEnv : SettleEnv :=
  { indexerResult := none, resolveResult := some sampleAgent
  , rateResult := some (1/10), transferOk := true, hcsLogOk := true
  , now := 1000000 }

/-- The settlement complete assembles for the sample scenario. -/
def sampleCompleteRes : PaidResult := completeSettlement sampleRental 30 (1/10)

/-- The settlement terminate assembles for the sample scenario. -/
def sampleTerminateRes : PaidResult := terminateSettlement sampleRental (1/10)

/-- The refund claimTimeout assembles for the sample scenario. -/
def sampleTimeoutRes : Settlement := timeoutSettlement sampleRental (1/10)

/-- A flash rental with a buffer of 0.000005 USD, so small that at a rate
of 10 USD per HBAR the charged amount is 50 tinybars and the 92/5/2/1
rounding becomes visible. -/
def dustRental : StoredRental :=
  { rentalId := "rental_2"
  , agentId := "0.0.12345"
  , renter := "0.0.1001"
  , owner := "0.0.2002"
  , rentalType := .flash
  , stakeUsd := 1
  , stakeHbar := 1/10
  , usageBufferUsd := 1/200000
  , usageBufferHbar := 1/2000000
  , escrowAccount := "0.0.9999"
  , escrowKey := some "aabb"
  , startedAt := 0
  , endedAt := none
  , status := .active
  , timeoutAt := some 1000000
  , settlementDeadline := some 87400000 }

/-- A store holding exactly the dust rental. -/
def dustStore : RentalStore :=
  { rentals := [("rental_2", dustRental)]
  , persisted := [("rental_2", dustRental)] }

/-- Environment for terminating the dust rental at a rate of 10 USD per
HBAR. -/
def dustEnv : SettleEnv :=
  { indexerResult := none, resolveResult := some sampleAgent
  , rateResult := some 10, transferOk := true, hcsLogOk := true
  , now := 5000 }

/-- The settlement terminate assembles for the dust rental. -/
def dustRes : PaidResult := terminateSettlement dustRental 10

/-- An empty rental store. -/
def emptyStore : RentalStore := { rentals := [], persisted := [] }

/-- Initiate environment where every ledger step succeeds at a rate of
0.10 USD per HBAR and the clock reads zero. -/
def initEnvZero : InitiateEnv :=
  { resolveResult := some sampleAgent, rateResult := some (1/10)
  , escrowAccountCreated := some "0.0.9999", escrowKeyGenerated := "aabb"
  , fundingOk := true, hcsLogOk := true, now := 0, rentalId := "rental_x" }

/-- Flash rental initiation with no expected duration. -/
def flashParams : InitiateParams :=
  { agentId := "0.0.12345", rentalType := .flash, stakeUsd := 50
  , bufferUsd := 100, expectedDurationMinutes := none }

/-- Session rental initiation with a 30 minute expected duration. -/
def sessionParams : InitiateParams :=
  { agentId := "0.0.12345", rentalType := .session, stakeUsd := 50
  , bufferUsd := 100, expectedDurationMinutes := some 30 }

/-- Term rental initiation with a 7 day expected duration. -/
def termParams : InitiateParams :=
  { agentId := "0.0.12345", rentalType := .term, stakeUsd := 50
  , bufferUsd := 100, expectedDurationMinutes := some 10080 }

/-- The rental initiate builds for given parameters under initEnvZero. -/
def rentalBuiltAtZero (p : InitiateParams) : StoredRental :=
  { rentalId := "rental_x"
  , agentId := p.agentId
  , renter := "0.0.1001"
  , owner := sampleAgent.owner
  , rentalType := p.rentalType
  , stakeUsd := p.stakeUsd
  , stakeHbar := p.stakeUsd / (1/10)
  , usageBufferUsd := p.bufferUsd
  , usageBufferHbar := p.bufferUsd / (1/10)
  , escrowAccount := "0.0.9999"
  , escrowKey := some "aabb"
  , startedAt := 0
  , endedAt := none
  , status := .active
  , timeoutAt := some ((p.expectedDurationMinutes.getD 0) * 60 * 1000
      + TIMEOUT_GRACE_MS p.rentalType)
  , settlementDeadline := some ((p.expectedDurationMinutes.getD 0) * 60 * 1000
      + TIMEOUT_GRACE_MS p.rentalType + SETTLEMENT_WINDOW_MS) }

/-- An initiate environment whose escrow funding transfer fails. -/
def failInitEnv : InitiateEnv := { initEnvZero with fundingOk := false }

/-- A freshly constructed BudgetMonitor with buffer 100 USD, warning
threshold 0.8 and critical threshold 0.95. -/
def bmInit : BudgetMonitor :=
  { bufferUsd := 100, bufferHbar := 5, warningThreshold := 8/10
  , criticalThreshold := 95/100, usageEvents := []
  , totalInstructions := 0, totalTokens := 0, totalCostUsd := 0 }

/-- The monitor bmInit after one event of the given cost. -/
def bmAfter (c : ℚ) : BudgetMonitor :=
  { bmInit with
    usageEvents := [{ timestamp := 0, costUsd := c, tokens := 0
                    , instructions := 1 }]
  , totalCostUsd := 0 + c
  , totalTokens := 0 + 0
  , totalInstructions := 0 + 1 }

/-- A rate service holding a cached CoinGecko rate of 0.25 from time 0. -/
def cachedRateService : ExchangeRateService :=
  { cache := some { rate := 1/4, timestamp := 0, source := .coingecko }
  , testRate := none }

theorem lookupRental_setRental_self (m : RentalMap) (id : String)
    (r : StoredRental) : lookupRental (setRental m id r) id = some r := by
  induction m with
  | nil => simp [setRental, lookupRental]
  | cons hd tl ih =>
      obtain ⟨k, x⟩ := hd
      by_cases h : k = id
      · simp [setRental, lookupRental, h]
      · simp [setRental, lookupRental, h, ih]

theorem getStatusOp_ok_of_get {st : RentalStore} {id : String}
    {ix : Option StoredRental} {r r' : StoredRental} (hget : st.get id = some r)
    (h : getStatusOp st id ix = .ok r') : r' = r := by
  unfold getStatusOp at h
  split at h
  · exact absurd h (by simp)
  · rw [hget] at h
    simpa using h.symm

theorem getStatusOp_ok_valid {st : RentalStore} {id : String}
    {ix : Option StoredRental} {r : StoredRental}
    (h : getStatusOp st id ix = .ok r) :
    ¬ (id.length = 0 ∨ id.length > 100) := by
  unfold getStatusOp at h
  split at h
  · exact absurd h (by simp)
  · assumption

theorem initiateOp_ok_elim {operatorId : String} {st : RentalStore}
    {p : InitiateParams} {env : InitiateEnv} {st' : RentalStore}
    {r : StoredRental} (h : initiateOp operatorId st p env = (st', .ok r)) :
    ∃ agent hbarRate escrowAccountId,
      env.resolveResult = some agent
      ∧ env.rateResult = some hbarRate
      ∧ env.escrowAccountCreated = some escrowAccountId
      ∧ r = { rentalId := env.rentalId
            , agentId := p.agentId
            , renter := operatorId
            , owner := agent.owner
            , rentalType := p.rentalType
            , stakeUsd := p.stakeUsd
            , stakeHbar := p.stakeUsd / hbarRate
            , usageBufferUsd := p.bufferUsd
            , usageBufferHbar := p.bufferUsd / hbarRate
            , escrowAccount := escrowAccountId
            , escrowKey := some env.escrowKeyGenerated
            , startedAt := env.now
            , endedAt := none
            , status := .active
            , timeoutAt := some (env.now
                + (p.expectedDurationMinutes.getD 0) * 60 * 1000
                + TIMEOUT_GRACE_MS p.rentalType)
            , settlementDeadline := some (env.now
                + (p.expectedDurationMinutes.getD 0) * 60 * 1000
                + TIMEOUT_GRACE_MS p.rentalType + SETTLEMENT_WINDOW_MS) }
      ∧ st' = st.put r := by
  unfold initiateOp at h
  split at h
  · exact absurd h (by simp)
  split at h
  · exact absurd h (by simp)
  split at h
  · exact absurd h (by simp)
  split at h
  · exact absurd h (by simp)
  split at h
  · exact absurd h (by simp)
  split at h
  · exact absurd h (by simp)
  next agent heq =>
  split at h
  · exact absurd h (by simp)
  next hbarRate hrate =>
  split at h
  · exact absurd h (by simp)
  next escrowAccountId hacct =>
  split at h
  · exact absurd h (by simp)
  split at h
  · exact absurd h (by simp)
  refine ⟨agent, hbarRate, escrowAccountId, heq, hrate, hacct, ?_, ?_⟩
  · have := congrArg Prod.snd h
    simpa using this.symm
  · have hr := congrArg Prod.snd h
    have hst := congrArg Prod.fst h
    simp at hr hst
    rw [← hst, hr]

theorem completeOp_ok_elim {st : RentalStore} {id : String}
    {usage : UsageReport} {env : SettleEnv} {st' : RentalStore}
    {res : PaidResult} (h : completeOp st id usage env = (st', .ok res)) :
    ∃ r hbarRate, getStatusOp st id env.indexerResult = .ok r
      ∧ env.rateResult = some hbarRate
      ∧ (∃ k, r.escrowKey = some k)
      ∧ res = completeSettlement r usage.totalCostUsd hbarRate
      ∧ st' = st.complete id .completed env.now := by
  unfold completeOp at h
  split at h
  · exact absurd h (by simp)
  split at h
  · exact absurd h (by simp)
  split at h
  · exact absurd h (by simp)
  split at h
  · exact absurd h (by simp)
  split at h
  · exact absurd h (by simp)
  split at h
  · exact absurd h (by simp)
  next r hr =>
  split at h
  · exact absurd h (by simp)
  split at h
  · exact absurd h (by simp)
  next hbarRate hrate =>
  split at h
  · exact absurd h (by simp)
  next k hkey =>
  split at h
  · exact absurd h (by simp)
  split at h
  · exact absurd h (by simp)
  refine ⟨r, hbarRate, hr, hrate, ⟨k, hkey⟩, ?_, ?_⟩
  · have := congrArg Prod.snd h
    simpa using this.symm
  · have := congrArg Prod.fst h
    simpa using this.symm

theorem terminateOp_ok_elim {operatorId : String} {st : RentalStore}
    {id : String} {reason : Option String} {env : SettleEnv}
    {st' : RentalStore} {res : PaidResult}
    (h : terminateOp operatorId st id reason env = (st', .ok res)) :
    ∃ r hbarRate, getStatusOp st id env.indexerResult = .ok r
      ∧ (r.renter = operatorId ∨ r.owner = operatorId)
      ∧ (∃ k, r.escrowKey = some k)
      ∧ env.rateResult = some hbarRate
      ∧ res = terminateSettlement r hbarRate
      ∧ st' = st.complete id .terminated env.now := by
  unfold terminateOp at h
  split at h
  · exact absurd h (by simp)
  split at h
  · exact absurd h (by simp)
  split at h
  · exact absurd h (by simp)
  next r hr =>
  split at h
  · exact absurd h (by simp)
  next hcaller =>
  split at h
  · exact absurd h (by simp)
  split at h
  · exact absurd h (by simp)
  next k hkey =>
  split at h
  · exact absurd h (by simp)
  next hbarRate hrate =>
  split at h
  · exact absurd h (by simp)
  split at h
  · exact absurd h (by simp)
  refine ⟨r, hbarRate, hr, ?_, ⟨k, hkey⟩, hrate, ?_, ?_⟩
  · rcases Decidable.em (r.renter = operatorId) with hc | hc
    · exact Or.inl hc
    · refine Or.inr ?_
      by_contra hc2
      exact hcaller ⟨hc, hc2⟩
  · have := congrArg Prod.snd h
    simpa using this.symm
  · have := congrArg Prod.fst h
    simpa using this.symm

theorem claimTimeoutOp_ok_elim {operatorId : String} {st : RentalStore}
    {id : String} {env : SettleEnv} {st' : RentalStore} {s : Settlement}
    (h : claimTimeoutOp operatorId st id env = (st', .ok s)) :
    ∃ r t hbarRate, getStatusOp st id env.indexerResult = .ok r
      ∧ r.status = .active
      ∧ r.renter = operatorId
      ∧ r.timeoutAt = some t
      ∧ t ≤ env.now
      ∧ (∃ k, r.escrowKey = some k)
      ∧ env.rateResult = some hbarRate
      ∧ s = timeoutSettlement r hbarRate
      ∧ st' = st.complete id .timed_out env.now := by
  unfold claimTimeoutOp at h
  split at h
  · exact absurd h (by simp)
  next r hr =>
  split at h
  · exact absurd h (by simp)
  next hstatus =>
  split at h
  · exact absurd h (by simp)
  next hrenter =>
  split at h
  · exact absurd h (by simp)
  next t htime =>
  split at h
  · exact absurd h (by simp)
  next hnow =>
  split at h
  · exact absurd h (by simp)
  next k hkey =>
  split at h
  · exact absurd h (by simp)
  split at h
  · exact absurd h (by simp)
  next hbarRate hrate =>
  split at h
  · exact absurd h (by simp)
  split at h
  · exact absurd h (by simp)
  refine ⟨r, t, hbarRate, hr, by simpa using hstatus, by simpa using hrenter,
    htime, by omega, ⟨k, hkey⟩, hrate, ?_, ?_⟩
  · have := congrArg Prod.snd h
    simpa using this.symm
  · have := congrArg Prod.fst h
    simpa using this.symm

theorem storeComplete_get {st : RentalStore} {id : String} {r : StoredRental}
    (ts : TerminalStatus) (now : ℕ) (h : st.get id = some r) :
    (st.complete id ts now).get id
        = some { r with status := ts.toStatus, endedAt := some now
                      , escrowKey := none }
      ∧ (st.complete id ts now).persisted = (st.complete id ts now).rentals := by
  unfold RentalStore.get at h
  unfold RentalStore.complete
  rw [h]
  constructor
  · unfold RentalStore.get RentalStore.save
    simpa using lookupRental_setRental_self st.rentals id _
  · simp [RentalStore.save]

theorem completeSettlement_creditSum (r : StoredRental) (c rate : ℚ) :
    creditSum (completeSettlement r c rate).sett
      = toTinybars (r.stakeHbar + r.usageBufferHbar) := by
  simp only [completeSettlement, creditSum, List.map_cons, List.map_nil,
    List.sum_cons, List.sum_nil]
  ring

theorem terminateSettlement_creditSum (r : StoredRental) (rate : ℚ) :
    creditSum (terminateSettlement r rate).sett
      = toTinybars (r.stakeHbar + r.usageBufferHbar) := by
  simp only [terminateSettlement, creditSum, List.map_cons, List.map_nil,
    List.sum_cons, List.sum_nil]
  ring

theorem timeoutSettlement_creditSum (r : StoredRental) (rate : ℚ) :
    creditSum (timeoutSettlement r rate)
      = toTinybars (r.stakeHbar + r.usageBufferHbar) := by
  simp only [timeoutSettlement, creditSum, List.map_cons, List.map_nil,
    List.sum_cons, List.sum_nil]
  ring

theorem put_get (st : RentalStore) (r : StoredRental) :
    (st.put r).get r.rentalId = some r := by
  unfold RentalStore.put RentalStore.get RentalStore.save
  simpa using lookupRental_setRental_self st.rentals r.rentalId r

theorem initiateOp_cases (operatorId : String) (st : RentalStore)
    (p : InitiateParams) (env : InitiateEnv) :
    (initiateOp operatorId st p env).1 = st
      ∨ ∃ r, (initiateOp operatorId st p env).2 = .ok r := by
  unfold initiateOp
  repeat' split
  all_goals simp

/-- C1: every successful settlement operation (complete, terminate or
claimTimeout) on a stored rental credits outputs that sum exactly to the
tinybar value of the originally escrowed total, stake plus buffer, which
is also the amount debited from escrow, and the amount charged against
usage is capped at the buffer, so the distribution never exceeds the
escrow. -/
theorem settlement_conserves_escrow :
    (∀ st id usage env st' res r, st.get id = some r →
        completeOp st id usage env = (st', .ok res) →
          creditSum res.sett = toTinybars (r.stakeHbar + r.usageBufferHbar)
          ∧ res.sett.escrowDebit = toTinybars (r.stakeHbar + r.usageBufferHbar)
          ∧ res.chargedUsd = min usage.totalCostUsd r.usageBufferUsd
          ∧ res.chargedUsd ≤ r.usageBufferUsd)
    ∧ (∀ operatorId st id reason env st' res r, st.get id = some r →
        terminateOp operatorId st id reason env = (st', .ok res) →
          creditSum res.sett = toTinybars (r.stakeHbar + r.usageBufferHbar)
          ∧ res.sett.escrowDebit = toTinybars (r.stakeHbar + r.usageBufferHbar)
          ∧ res.chargedUsd ≤ r.usageBufferUsd)
    ∧ (∀ operatorId st id env st' s r, st.get id = some r →
        claimTimeoutOp operatorId st id env = (st', .ok s) →
          creditSum s = toTinybars (r.stakeHbar + r.usageBufferHbar)
          ∧ s.escrowDebit = toTinybars (r.stakeHbar + r.usageBufferHbar)) := by
  refine ⟨?_, ?_, ?_⟩
  · intro st id usage env st' res r hget h
    obtain ⟨r0, rate, hr0, _, _, hres, _⟩ := completeOp_ok_elim h
    obtain rfl := getStatusOp_ok_of_get hget hr0
    subst hres
    refine ⟨completeSettlement_creditSum r0 usage.totalCostUsd rate, rfl, rfl,
      min_le_right _ _⟩
  · intro operatorId st id reason env st' res r hget h
    obtain ⟨r0, rate, hr0, _, _, _, hres, _⟩ := terminateOp_ok_elim h
    obtain rfl := getStatusOp_ok_of_get hget hr0
    subst hres
    exact ⟨terminateSettlement_creditSum r0 rate, rfl, min_le_right _ _⟩
  · intro operatorId st id env st' s r hget h
    obtain ⟨r0, t, rate, hr0, _, _, _, _, _, _, hs, _⟩ := claimTimeoutOp_ok_elim h
    obtain rfl := getStatusOp_ok_of_get hget hr0
    subst hs
    exact ⟨timeoutSettlement_creditSum r0 rate, rfl⟩

/-- Witness for C1: the three settlement paths evaluated on the concrete
sample rental, each conserving the escrowed 1500 HBAR. -/
theorem settlement_conserves_escrow_witness :
    (creditSum sampleCompleteRes.sett
        = toTinybars (sampleRental.stakeHbar + sampleRental.usageBufferHbar)
      ∧ sampleCompleteRes.chargedUsd ≤ sampleRental.usageBufferUsd)
    ∧ (creditSum sampleTerminateRes.sett
        = toTinybars (sampleRental.stakeHbar + sampleRental.usageBufferHbar)
      ∧ sampleTerminateRes.chargedUsd ≤ sampleRental.usageBufferUsd)
    ∧ creditSum sampleTimeoutRes
        = toTinybars (sampleRental.stakeHbar + sampleRental.usageBufferHbar) := by
  have hget : sampleStore.get "rental_1" = some sampleRental := by
    simp [RentalStore.get, sampleStore, lookupRental]
  have hcomplete : completeOp sampleStore "rental_1" sampleUsage sampleEnv
      = (sampleStore.complete "rental_1" .completed 1000000,
          .ok sampleCompleteRes) := by
    have hlen0 : ¬ ("rental_1".length = 0) := by decide
    have hlen1 : ¬ (100 < "rental_1".length) := by decide
    simp only [completeOp, getStatusOp, RentalStore.get, RentalStore.complete,
      RentalStore.save, sampleStore, sampleRental, sampleUsage, sampleEnv,
      lookupRental, setRental, completeSettlement, sampleCompleteRes,
      hlen0, hlen1]
    norm_num
  have hterm : terminateOp "0.0.1001" sampleStore "rental_1" none sampleEnv
      = (sampleStore.complete "rental_1" .terminated 1000000,
          .ok sampleTerminateRes) := by
    have hlen0 : ¬ ("rental_1".length = 0) := by decide
    have hlen1 : ¬ (100 < "rental_1".length) := by decide
    simp only [terminateOp, getStatusOp, RentalStore.get, RentalStore.complete,
      RentalStore.save, sampleStore, sampleRental, sampleEnv, lookupRental,
      setRental, terminateSettlement, sampleTerminateRes, hlen0, hlen1]
    norm_num
  have htime : claimTimeoutOp "0.0.1001" sampleStore "rental_1" sampleEnv
      = (sampleStore.complete "rental_1" .timed_out 1000000,
          .ok sampleTimeoutRes) := by
    have hlen0 : ¬ ("rental_1".length = 0) := by decide
    have hlen1 : ¬ (100 < "rental_1".length) := by decide
    simp only [claimTimeoutOp, getStatusOp, RentalStore.get,
      RentalStore.complete, RentalStore.save, sampleStore, sampleRental,
      sampleEnv, lookupRental, setRental, timeoutSettlement, sampleTimeoutRes,
      hlen0, hlen1]
    norm_num
  have h1 := settlement_conserves_escrow.1 sampleStore "rental_1" sampleUsage
    sampleEnv _ sampleCompleteRes sampleRental hget hcomplete
  have h2 := settlement_conserves_escrow.2.1 "0.0.1001" sampleStore "rental_1"
    none sampleEnv _ sampleTerminateRes sampleRental hget hterm
  have h3 := settlement_conserves_escrow.2.2 "0.0.1001" sampleStore "rental_1"
    sampleEnv _ sampleTimeoutRes sampleRental hget htime
  exact ⟨⟨h1.1, h1.2.2.2⟩, ⟨h2.1, h2.2.2⟩, h3.1⟩

/-- C5: when any ledger step of initiate fails the store is unchanged, so
no partial rental is persisted, and when initiate returns a rental, that
rental is already persisted in the store with status active and its escrow
secret present. -/
theorem initiate_atomic_persist :
    (∀ operatorId st p env e,
        (initiateOp operatorId st p env).2 = .error e →
          (initiateOp operatorId st p env).1 = st)
    ∧ (∀ operatorId st p env st' r,
        initiateOp operatorId st p env = (st', .ok r) →
          st'.get r.rentalId = some r
          ∧ r.status = .active
          ∧ r.escrowKey.isSome) := by
  constructor
  · intro operatorId st p env e h
    rcases initiateOp_cases operatorId st p env with h1 | ⟨r, hr⟩
    · exact h1
    · rw [h] at hr
      exact absurd hr (by simp)
  · intro operatorId st p env st' r h
    obtain ⟨agent, rate, acct, _, _, _, hr, hst⟩ := initiateOp_ok_elim h
    subst hst
    refine ⟨put_get st r, ?_, ?_⟩
    · rw [hr]
    · rw [hr]
      rfl

/-- Witness for C5: a funding failure leaves the empty store empty, and a
fully successful initiation of the session rental is immediately readable
from the store, active, with its secret. -/
theorem initiate_atomic_persist_witness :
    (initiateOp "0.0.1001" emptyStore sessionParams failInitEnv).1 = emptyStore
    ∧ ((emptyStore.put (rentalBuiltAtZero sessionParams)).get
          (rentalBuiltAtZero sessionParams).rentalId
        = some (rentalBuiltAtZero sessionParams)
      ∧ (rentalBuiltAtZero sessionParams).status = .active
      ∧ (rentalBuiltAtZero sessionParams).escrowKey.isSome) := by
  have hvalid : isValidEntityId "0.0.12345" = true := by decide
  have herr : (initiateOp "0.0.1001" emptyStore sessionParams failInitEnv).2
      = .error (.dependencyFailed "escrowFunding") := by
    simp only [initiateOp, sessionParams, failInitEnv, initEnvZero, sampleAgent,
      hvalid, durationInvalid]
    norm_num
  have hok : initiateOp "0.0.1001" emptyStore sessionParams initEnvZero
      = (emptyStore.put (rentalBuiltAtZero sessionParams),
          .ok (rentalBuiltAtZero sessionParams)) := by
    simp only [initiateOp, sessionParams, initEnvZero, rentalBuiltAtZero,
      sampleAgent, hvalid, durationInvalid, emptyStore, RentalStore.put,
      RentalStore.save, setRental, TIMEOUT_GRACE_MS, SETTLEMENT_WINDOW_MS]
    norm_num
  exact ⟨initiate_atomic_persist.1 "0.0.1001" emptyStore sessionParams
      failInitEnv _ herr,
    initiate_atomic_persist.2 "0.0.1001" emptyStore sessionParams initEnvZero
      _ _ hok⟩

/-- C6: the grace period is 15 minutes for flash, 1 hour for session and
24 hours for term; every initiated rental has timeoutAt equal to now plus
the expected duration plus the grace, and settlementDeadline equal to
timeoutAt plus the fixed 24 hour window; and getDeadEscrows selects
exactly the active rentals whose timeoutAt lies more than the fixed 7 day
horizon in the past. -/
theorem escrowTimeoutPolicy_correct :
    (TIMEOUT_GRACE_MS .flash = 15 * 60 * 1000
      ∧ TIMEOUT_GRACE_MS .session = 60 * 60 * 1000
      ∧ TIMEOUT_GRACE_MS .term = 24 * 60 * 60 * 1000
      ∧ SETTLEMENT_WINDOW_MS = 24 * 60 * 60 * 1000
      ∧ DEAD_ESCROW_MS = 7 * 24 * 60 * 60 * 1000)
    ∧ (∀ operatorId st p env st' r,
        initiateOp operatorId st p env = (st', .ok r) →
          r.timeoutAt = some (env.now
              + (p.expectedDurationMinutes.getD 0) * 60 * 1000
              + TIMEOUT_GRACE_MS p.rentalType)
          ∧ r.settlementDeadline = some (env.now
              + (p.expectedDurationMinutes.getD 0) * 60 * 1000
              + TIMEOUT_GRACE_MS p.rentalType + SETTLEMENT_WINDOW_MS))
    ∧ (∀ st now r, r ∈ getDeadEscrows st now ↔
        r ∈ st.getActive ∧ ∃ t, r.timeoutAt = some t ∧ now > t + DEAD_ESCROW_MS) := by
  refine ⟨⟨rfl, rfl, rfl, rfl, rfl⟩, ?_, ?_⟩
  · intro operatorId st p env st' r h
    obtain ⟨agent, rate, acct, _, _, _, hr, _⟩ := initiateOp_ok_elim h
    rw [hr]
    exact ⟨rfl, rfl⟩
  · intro st now r
    unfold getDeadEscrows
    rw [List.mem_filter]
    constructor
    · rintro ⟨hmem, hcond⟩
      refine ⟨hmem, ?_⟩
      cases htime : r.timeoutAt with
      | none => rw [htime] at hcond; simp at hcond
      | some t =>
          rw [htime] at hcond
          simp at hcond
          exact ⟨t, rfl, hcond⟩
    · rintro ⟨hmem, t, htime, hlt⟩
      refine ⟨hmem, ?_⟩
      rw [htime]
      simpa using hlt

/-- Witness for C6: the pinned arithmetic of the spec, a flash rental with
no expected duration times out 15 minutes after now, a 30 minute session
90 minutes after now, and a 7 day term 8 days after now, each with the 24
hour settlement window on top. -/
theorem escrowTimeoutPolicy_witness :
    (rentalBuiltAtZero flashParams).timeoutAt = some 900000
    ∧ (rentalBuiltAtZero sessionParams).timeoutAt = some 5400000
    ∧ (rentalBuiltAtZero termParams).timeoutAt = some 691200000
    ∧ (rentalBuiltAtZero sessionParams).settlementDeadline
        = some (5400000 + 24 * 60 * 60 * 1000) := by
  have hvalid : isValidEntityId "0.0.12345" = true := by decide
  have hflash : initiateOp "0.0.1001" emptyStore flashParams initEnvZero
      = (emptyStore.put (rentalBuiltAtZero flashParams),
          .ok (rentalBuiltAtZero flashParams)) := by
    simp only [initiateOp, flashParams, initEnvZero, rentalBuiltAtZero,
      sampleAgent, hvalid, durationInvalid, emptyStore, RentalStore.put,
      RentalStore.save, setRental, TIMEOUT_GRACE_MS, SETTLEMENT_WINDOW_MS]
    norm_num
  have hsession : initiateOp "0.0.1001" emptyStore sessionParams initEnvZero
      = (emptyStore.put (rentalBuiltAtZero sessionParams),
          .ok (rentalBuiltAtZero sessionParams)) := by
    simp only [initiateOp, sessionParams, initEnvZero, rentalBuiltAtZero,
      sampleAgent, hvalid, durationInvalid, emptyStore, RentalStore.put,
      RentalStore.save, setRental, TIMEOUT_GRACE_MS, SETTLEMENT_WINDOW_MS]
    norm_num
  have hterm : initiateOp "0.0.1001" emptyStore termParams initEnvZero
      = (emptyStore.put (rentalBuiltAtZero termParams),
          .ok (rentalBuiltAtZero termParams)) := by
    simp only [initiateOp, termParams, initEnvZero, rentalBuiltAtZero,
      sampleAgent, hvalid, durationInvalid, emptyStore, RentalStore.put,
      RentalStore.save, setRental, TIMEOUT_GRACE_MS, SETTLEMENT_WINDOW_MS]
    norm_num
  have h1 := (escrowTimeoutPolicy_correct.2.1 "0.0.1001" emptyStore flashParams
    initEnvZero _ _ hflash).1
  have h2 := escrowTimeoutPolicy_correct.2.1 "0.0.1001" emptyStore sessionParams
    initEnvZero _ _ hsession
  have h3 := (escrowTimeoutPolicy_correct.2.1 "0.0.1001" emptyStore termParams
    initEnvZero _ _ hterm).1
  refine ⟨h1.trans (by norm_num [flashParams, TIMEOUT_GRACE_MS, initEnvZero]),
    h2.1.trans (by norm_num [sessionParams, TIMEOUT_GRACE_MS, initEnvZero]),
    h3.trans (by norm_num [termParams, TIMEOUT_GRACE_MS, initEnvZero]),
    h2.2.trans (by norm_num [sessionParams, TIMEOUT_GRACE_MS,
      SETTLEMENT_WINDOW_MS, initEnvZero])⟩

/-- C3: a rental that reaches a terminal status through RentalStore
complete keeps its record, with the terminal status and endedAt set, but
the escrow secret is deleted from the in-memory record and the persisted
snapshot alike; and every rental produced by initiate is active and
carries its escrow secret. -/
theorem escrowSecret_lifecycle :
    (∀ (st : RentalStore) (id : String) (ts : TerminalStatus) (now : ℕ)
        (r : StoredRental), st.get id = some r →
        (st.complete id ts now).get id
            = some { r with status := TerminalStatus.toStatus ts
                          , endedAt := some now, escrowKey := none }
        ∧ lookupRental (st.complete id ts now).persisted id
            = some { r with status := TerminalStatus.toStatus ts
                          , endedAt := some now, escrowKey := none }
        ∧ (st.complete id ts now).persisted = (st.complete id ts now).rentals)
    ∧ (∀ operatorId st p env st' r,
        initiateOp operatorId st p env = (st', .ok r) →
          r.status = .active ∧ r.escrowKey = some env.escrowKeyGenerated) := by
  constructor
  · intro st id ts now r hget
    obtain ⟨h1, h2⟩ := storeComplete_get ts now hget
    refine ⟨h1, ?_, h2⟩
    rw [h2]
    exact h1
  · intro operatorId st p env st' r h
    obtain ⟨agent, rate, acct, _, _, _, hr, _⟩ := initiateOp_ok_elim h
    rw [hr]
    exact ⟨rfl, rfl⟩

/-- Witness for C3: completing the stored sample rental as terminated at
time 2000000 deletes the secret from the record and the snapshot while
keeping the record, and the concretely initiated session rental starts
active with its secret. -/
theorem escrowSecret_lifecycle_witness :
    ((sampleStore.complete "rental_1" .terminated 2000000).get "rental_1"
        = some { sampleRental with status := TerminalStatus.toStatus .terminated
                                 , endedAt := some 2000000, escrowKey := none }
      ∧ lookupRental (sampleStore.complete "rental_1" .terminated 2000000).persisted
            "rental_1"
          = some { sampleRental with status := TerminalStatus.toStatus .terminated
                                   , endedAt := some 2000000, escrowKey := none })
    ∧ ((rentalBuiltAtZero sessionParams).status = .active
      ∧ (rentalBuiltAtZero sessionParams).escrowKey = some "aabb") := by
  have hget : sampleStore.get "rental_1" = some sampleRental := by
    simp [RentalStore.get, sampleStore, lookupRental]
  have hvalid : isValidEntityId "0.0.12345" = true := by decide
  have hok : initiateOp "0.0.1001" emptyStore sessionParams initEnvZero
      = (emptyStore.put (rentalBuiltAtZero sessionParams),
          .ok (rentalBuiltAtZero sessionParams)) := by
    simp only [initiateOp, sessionParams, initEnvZero, rentalBuiltAtZero,
      sampleAgent, hvalid, durationInvalid, emptyStore, RentalStore.put,
      RentalStore.save, setRental, TIMEOUT_GRACE_MS, SETTLEMENT_WINDOW_MS]
    norm_num
  have h1 := escrowSecret_lifecycle.1 sampleStore "rental_1" .terminated
    2000000 sampleRental hget
  have h2 := escrowSecret_lifecycle.2 "0.0.1001" emptyStore sessionParams
    initEnvZero _ _ hok
  exact ⟨⟨h1.1, h1.2.1⟩, h2⟩

/-- C4: after a successful terminate of a stored rental, a second
terminate of the same rental id fails with the conflict error raised when
no escrow key remains, and returns the store exactly as the first call
left it. -/
theorem terminate_double_conflict :
    ∀ operatorId st id reason env st1 res reason2 env2 r a,
      st.get id = some r →
      terminateOp operatorId st id reason env = (st1, .ok res) →
      env2.resolveResult = some a →
      (reason2.getD "").length ≤ 1000 →
      terminateOp operatorId st1 id reason2 env2 = (st1, .error .noEscrowKey) := by
  intro operatorId st id reason env st1 res reason2 env2 r a hget h1 ha hreason
  obtain ⟨r0, rate, hr0, hcaller, hkey, hrate, hres, hst1⟩ :=
    terminateOp_ok_elim h1
  obtain rfl := getStatusOp_ok_of_get hget hr0
  have hvalid := getStatusOp_ok_valid hr0
  subst hst1
  have hg := (storeComplete_get .terminated env.now hget).1
  have hstat : getStatusOp (st.complete id .terminated env.now) id
      env2.indexerResult
      = .ok { r0 with status := TerminalStatus.toStatus .terminated
                    , endedAt := some env.now, escrowKey := none } := by
    unfold getStatusOp
    rw [if_neg hvalid, hg]
  unfold terminateOp
  rw [if_neg hvalid, if_neg (by omega), hstat]
  have hcall : ¬ (({ r0 with status := TerminalStatus.toStatus .terminated
                           , endedAt := some env.now
                           , escrowKey := none } : StoredRental).renter
        ≠ operatorId
      ∧ ({ r0 with status := TerminalStatus.toStatus .terminated
                 , endedAt := some env.now
                 , escrowKey := none } : StoredRental).owner ≠ operatorId) := by
    rcases hcaller with hc | hc
    · intro hcontra
      exact hcontra.1 hc
    · intro hcontra
      exact hcontra.2 hc
  simp [hcall, ha]

/-- Witness for C4: terminating the stored sample rental succeeds, and a
second terminate on the resulting store fails with the conflict error and
leaves that store untouched. -/
theorem terminate_double_conflict_witness :
    terminateOp "0.0.1001" (sampleStore.complete "rental_1" .terminated 1000000)
        "rental_1" none sampleEnv
      = (sampleStore.complete "rental_1" .terminated 1000000,
          .error .noEscrowKey) := by
  have hget : sampleStore.get "rental_1" = some sampleRental := by
    simp [RentalStore.get, sampleStore, lookupRental]
  have hterm : terminateOp "0.0.1001" sampleStore "rental_1" none sampleEnv
      = (sampleStore.complete "rental_1" .terminated 1000000,
          .ok sampleTerminateRes) := by
    have hlen0 : ¬ ("rental_1".length = 0) := by decide
    have hlen1 : ¬ (100 < "rental_1".length) := by decide
    simp only [terminateOp, getStatusOp, RentalStore.get, RentalStore.complete,
      RentalStore.save, sampleStore, sampleRental, sampleEnv, lookupRental,
      setRental, terminateSettlement, sampleTerminateRes, hlen0, hlen1]
    norm_num
  exact terminate_double_conflict "0.0.1001" sampleStore "rental_1" none
    sampleEnv _ sampleTerminateRes none sampleEnv sampleRental sampleAgent
    hget hterm rfl (by decide)

theorem claimTimeoutOp_cases (operatorId : String) (st : RentalStore)
    (id : String) (env : SettleEnv) :
    (claimTimeoutOp operatorId st id env).1 = st
      ∨ ∃ s, (claimTimeoutOp operatorId st id env).2 = .ok s := by
  unfold claimTimeoutOp
  repeat' split
  all_goals simp

/-- C7 counterexample: the claim requires claimTimeout to fail whenever
the current time is at or before timeoutAt, but on the stored sample
rental whose timeout is exactly the current clock (now = timeoutAt =
1000000) the call succeeds and settles the escrow, because the source only
rejects now strictly before timeoutAt. -/
theorem claimTimeout_boundary_counterexample :
    sampleEnv.now = 1000000
    ∧ sampleRental.timeoutAt = some 1000000
    ∧ sampleStore.get "rental_1" = some sampleRental
    ∧ claimTimeoutOp "0.0.1001" sampleStore "rental_1" sampleEnv
        = (sampleStore.complete "rental_1" .timed_out 1000000,
            .ok sampleTimeoutRes) := by
  refine ⟨rfl, rfl, by simp [RentalStore.get, sampleStore, lookupRental], ?_⟩
  have hlen0 : ¬ ("rental_1".length = 0) := by decide
  have hlen1 : ¬ (100 < "rental_1".length) := by decide
  simp only [claimTimeoutOp, getStatusOp, RentalStore.get,
    RentalStore.complete, RentalStore.save, sampleStore, sampleRental,
    sampleEnv, lookupRental, setRental, timeoutSettlement, sampleTimeoutRes,
    hlen0, hlen1]
  norm_num

/-- C7 (amended): claimTimeout succeeds only when the caller is the stored
renter, the rental is still active, and the current time is at or after
timeoutAt (now may equal timeoutAt); for a wrong caller, a non-active
status, or a clock strictly before timeoutAt it fails and leaves the store
unchanged. -/
theorem claimTimeout_preconditions :
    ∀ operatorId st id env r, st.get id = some r →
      (∀ st' s, claimTimeoutOp operatorId st id env = (st', .ok s) →
          r.renter = operatorId ∧ r.status = .active
          ∧ ∃ t, r.timeoutAt = some t ∧ t ≤ env.now)
      ∧ ((r.status ≠ .active ∨ r.renter ≠ operatorId
            ∨ (∃ t, r.timeoutAt = some t ∧ env.now < t)) →
          (claimTimeoutOp operatorId st id env).1 = st
          ∧ ∀ s, (claimTimeoutOp operatorId st id env).2 ≠ .ok s) := by
  intro operatorId st id env r hget
  have notOk : (r.status ≠ .active ∨ r.renter ≠ operatorId
      ∨ (∃ t, r.timeoutAt = some t ∧ env.now < t)) →
      ∀ s, (claimTimeoutOp operatorId st id env).2 ≠ .ok s := by
    intro hdis s hok
    obtain ⟨st', hpair⟩ : ∃ st',
        claimTimeoutOp operatorId st id env = (st', .ok s) := by
      refine ⟨(claimTimeoutOp operatorId st id env).1, ?_⟩
      rw [← hok]
    obtain ⟨r0, t, rate, hr0, hstatus, hrenter, htime, hle, _, _, _, _⟩ :=
      claimTimeoutOp_ok_elim hpair
    obtain rfl := getStatusOp_ok_of_get hget hr0
    rcases hdis with hd | hd | ⟨t', ht', hlt⟩
    · exact hd hstatus
    · exact hd hrenter
    · rw [htime] at ht'
      obtain rfl := Option.some.injEq .. ▸ ht'
      omega
  constructor
  · intro st' s h
    obtain ⟨r0, t, rate, hr0, hstatus, hrenter, htime, hle, _, _, _, _⟩ :=
      claimTimeoutOp_ok_elim h
    obtain rfl := getStatusOp_ok_of_get hget hr0
    exact ⟨hrenter, hstatus, t, htime, hle⟩
  · intro hdis
    refine ⟨?_, notOk hdis⟩
    rcases claimTimeoutOp_cases operatorId st id env with h1 | ⟨s, hs⟩
    · exact h1
    · exact absurd hs (notOk hdis s)

/-- Witness for C7 (amended): the successful boundary claim on the sample
rental implies the caller is the renter and the rental is active, and a
call by a non-renter leaves the store unchanged. -/
theorem claimTimeout_preconditions_witness :
    (sampleRental.renter = "0.0.1001" ∧ sampleRental.status = .active)
    ∧ (claimTimeoutOp "0.0.9998" sampleStore "rental_1" sampleEnv).1
        = sampleStore := by
  have hget : sampleStore.get "rental_1" = some sampleRental := by
    simp [RentalStore.get, sampleStore, lookupRental]
  have hsucc : claimTimeoutOp "0.0.1001" sampleStore "rental_1" sampleEnv
      = (sampleStore.complete "rental_1" .timed_out 1000000,
          .ok sampleTimeoutRes) := by
    have hlen0 : ¬ ("rental_1".length = 0) := by decide
    have hlen1 : ¬ (100 < "rental_1".length) := by decide
    simp only [claimTimeoutOp, getStatusOp, RentalStore.get,
      RentalStore.complete, RentalStore.save, sampleStore, sampleRental,
      sampleEnv, lookupRental, setRental, timeoutSettlement, sampleTimeoutRes,
      hlen0, hlen1]
    norm_num
  have hA := (claimTimeout_preconditions "0.0.1001" sampleStore "rental_1"
    sampleEnv sampleRental hget).1 _ _ hsucc
  have hB := (claimTimeout_preconditions "0.0.9998" sampleStore "rental_1"
    sampleEnv sampleRental hget).2
    (Or.inr (Or.inl (by decide)))
  exact ⟨⟨hA.1, hA.2.1⟩, hB.1⟩

/-- C2 counterexample: terminating the dust rental (charged amount 50
tinybars at rate 10) succeeds, yet the four 92/5/2/1 shares sum to 51
tinybars, not to the 50 tinybar charged amount, and the creator share is
3, not the floored value 2 — the source rounds each share to the nearest
tinybar instead of flooring, and in the terminate path no share is
computed as charged minus the others. -/
theorem feeSplit_claim_counterexample :
    terminateOp "0.0.1001" dustStore "rental_2" none dustEnv
      = (dustStore.complete "rental_2" .terminated 5000, .ok dustRes)
    ∧ creditTo dustRes.sett .owner + creditTo dustRes.sett .creator
        + creditTo dustRes.sett .network + creditTo dustRes.sett .treasury
      ≠ toTinybars (dustRes.chargedUsd / 10)
    ∧ creditTo dustRes.sett .creator
      ≠ ⌊dustRes.chargedUsd / 10 * creator_royalty * 100000000⌋ := by
  refine ⟨?_, ?_, ?_⟩
  · have hlen0 : ¬ ("rental_2".length = 0) := by decide
    have hlen1 : ¬ (100 < "rental_2".length) := by decide
    simp only [terminateOp, getStatusOp, RentalStore.get, RentalStore.complete,
      RentalStore.save, dustStore, dustRental, dustEnv, lookupRental,
      setRental, terminateSettlement, dustRes, hlen0, hlen1]
    norm_num
  · norm_num [dustRes, terminateSettlement, dustRental, toTinybars, creditTo,
      List.filter_cons, List.filter_nil, creator_royalty,
      network_contribution, atp_treasury, owner_revenue]
    decide
  · norm_num [dustRes, terminateSettlement, dustRental, toTinybars, creditTo,
      List.filter_cons, List.filter_nil, creator_royalty,
      network_contribution, atp_treasury, owner_revenue]
    decide

/-- C2 (amended): all arithmetic is done in the atomic unit with the fixed
92/5/2/1 splits, but each share is rounded to the nearest tinybar (half
up), not floored; the four shares need not sum to the charged amount.
Exactness holds at the level of the whole escrow instead: in terminate the
renter refund, and in complete the owner output, is the escrowed total
minus the other rounded outputs, so every settlement sums exactly to the
escrowed total in both paths. -/
theorem feeSplit_rounding_exact :
    (∀ operatorId st id reason env st' res r hbarRate,
        st.get id = some r → env.rateResult = some hbarRate →
        terminateOp operatorId st id reason env = (st', .ok res) →
          res.sett.credits =
            [(Party.owner,
                toTinybars (res.chargedUsd / hbarRate * owner_revenue)),
             (Party.creator,
                toTinybars (res.chargedUsd / hbarRate * creator_royalty)),
             (Party.network,
                toTinybars (res.chargedUsd / hbarRate * network_contribution)),
             (Party.treasury,
                toTinybars (res.chargedUsd / hbarRate * atp_treasury)),
             (Party.renter, toTinybars (r.stakeHbar + r.usageBufferHbar)
                - toTinybars (res.chargedUsd / hbarRate * owner_revenue)
                - toTinybars (res.chargedUsd / hbarRate * creator_royalty)
                - toTinybars (res.chargedUsd / hbarRate * network_contribution)
                - toTinybars (res.chargedUsd / hbarRate * atp_treasury))]
          ∧ creditSum res.sett = toTinybars (r.stakeHbar + r.usageBufferHbar))
    ∧ (∀ st id usage env st' res r hbarRate,
        st.get id = some r → env.rateResult = some hbarRate →
        completeOp st id usage env = (st', .ok res) →
          res.sett.credits =
            [(Party.owner, toTinybars (r.stakeHbar + r.usageBufferHbar)
                - toTinybars (res.chargedUsd * creator_royalty / hbarRate)
                - toTinybars (res.chargedUsd * network_contribution / hbarRate)
                - toTinybars (res.chargedUsd * atp_treasury / hbarRate)
                - toTinybars r.stakeHbar
                - toTinybars (max 0 (r.usageBufferUsd - res.chargedUsd)
                    / hbarRate)),
             (Party.creator,
                toTinybars (res.chargedUsd * creator_royalty / hbarRate)),
             (Party.network,
                toTinybars (res.chargedUsd * network_contribution / hbarRate)),
             (Party.treasury,
                toTinybars (res.chargedUsd * atp_treasury / hbarRate)),
             (Party.renter, toTinybars r.stakeHbar
                + toTinybars (max 0 (r.usageBufferUsd - res.chargedUsd)
                    / hbarRate))]
          ∧ creditSum res.sett = toTinybars (r.stakeHbar + r.usageBufferHbar)) := by
  constructor
  · intro operatorId st id reason env st' res r hbarRate hget hrateEq h
    obtain ⟨r0, rate, hr0, _, _, hrate, hres, _⟩ := terminateOp_ok_elim h
    obtain rfl := getStatusOp_ok_of_get hget hr0
    rw [hrateEq] at hrate
    obtain rfl : hbarRate = rate := by simpa using hrate
    subst hres
    exact ⟨rfl, terminateSettlement_creditSum r0 hbarRate⟩
  · intro st id usage env st' res r hbarRate hget hrateEq h
    obtain ⟨r0, rate, hr0, hrate, _, hres, _⟩ := completeOp_ok_elim h
    obtain rfl := getStatusOp_ok_of_get hget hr0
    rw [hrateEq] at hrate
    obtain rfl : hbarRate = rate := by simpa using hrate
    subst hres
    exact ⟨rfl, completeSettlement_creditSum r0 usage.totalCostUsd hbarRate⟩

/-- Witness for C2 (amended): the dust terminate settlement laid out
share by rounded share, summing to the escrowed total. -/
theorem feeSplit_rounding_exact_witness :
    dustRes.sett.credits =
      [(Party.owner, toTinybars (dustRes.chargedUsd / 10 * owner_revenue)),
       (Party.creator, toTinybars (dustRes.chargedUsd / 10 * creator_royalty)),
       (Party.network,
          toTinybars (dustRes.chargedUsd / 10 * network_contribution)),
       (Party.treasury, toTinybars (dustRes.chargedUsd / 10 * atp_treasury)),
       (Party.renter,
          toTinybars (dustRental.stakeHbar + dustRental.usageBufferHbar)
          - toTinybars (dustRes.chargedUsd / 10 * owner_revenue)
          - toTinybars (dustRes.chargedUsd / 10 * creator_royalty)
          - toTinybars (dustRes.chargedUsd / 10 * network_contribution)
          - toTinybars (dustRes.chargedUsd / 10 * atp_treasury))]
    ∧ creditSum dustRes.sett
        = toTinybars (dustRental.stakeHbar + dustRental.usageBufferHbar) := by
  have hget : dustStore.get "rental_2" = some dustRental := by
    simp [RentalStore.get, dustStore, lookupRental]
  have hterm : terminateOp "0.0.1001" dustStore "rental_2" none dustEnv
      = (dustStore.complete "rental_2" .terminated 5000, .ok dustRes) := by
    have hlen0 : ¬ ("rental_2".length = 0) := by decide
    have hlen1 : ¬ (100 < "rental_2".length) := by decide
    simp only [terminateOp, getStatusOp, RentalStore.get, RentalStore.complete,
      RentalStore.save, dustStore, dustRental, dustEnv, lookupRental,
      setRental, terminateSettlement, dustRes, hlen0, hlen1]
    norm_num
  exact feeSplit_rounding_exact.1 "0.0.1001" dustStore "rental_2" none dustEnv
    _ dustRes dustRental 10 hget rfl hterm

theorem minimalFee_cancel (B rate : ℚ) :
    B * (atp_treasury + network_contribution) * network_contribution
        / (atp_treasury + network_contribution) / rate
      = B * network_contribution / rate
    ∧ B * (atp_treasury + network_contribution) * atp_treasury
        / (atp_treasury + network_contribution) / rate
      = B * atp_treasury / rate := by
  have h3 : atp_treasury + network_contribution = 3/100 := by
    norm_num [atp_treasury, network_contribution]
  constructor
  · rw [h3, network_contribution]
    rw [mul_comm B (3/100 : ℚ), mul_assoc, mul_comm (3/100 : ℚ),
      mul_div_assoc, div_self (by norm_num : (3/100 : ℚ) ≠ 0), mul_one]
  · rw [h3, atp_treasury]
    rw [mul_comm B (3/100 : ℚ), mul_assoc, mul_comm (3/100 : ℚ),
      mul_div_assoc, div_self (by norm_num : (3/100 : ℚ) ≠ 0), mul_one]

/-- C10: a successful claimTimeout settlement withholds a fee computed
solely from the usage buffer — the network output is the tinybar value of
2 percent of bufferUsd and the treasury output that of 1 percent, the
transfer has no owner or creator output, and the renter receives exactly
the escrowed total minus the two fees. -/
theorem claimTimeout_minimal_fee :
    ∀ operatorId st id env st' s r hbarRate,
      st.get id = some r →
      env.rateResult = some hbarRate →
      claimTimeoutOp operatorId st id env = (st', .ok s) →
        creditTo s .network
          = toTinybars (r.usageBufferUsd * network_contribution / hbarRate)
        ∧ creditTo s .treasury
          = toTinybars (r.usageBufferUsd * atp_treasury / hbarRate)
        ∧ creditTo s .owner = 0
        ∧ creditTo s .creator = 0
        ∧ s.credits.map Prod.fst = [Party.network, Party.treasury, Party.renter]
        ∧ creditTo s .renter
          = toTinybars (r.stakeHbar + r.usageBufferHbar)
            - creditTo s .network - creditTo s .treasury := by
  intro operatorId st id env st' s r hbarRate hget hrateEq h
  obtain ⟨r0, t, rate, hr0, _, _, _, _, _, hrate, hs, _⟩ :=
    claimTimeoutOp_ok_elim h
  obtain rfl := getStatusOp_ok_of_get hget hr0
  rw [hrateEq] at hrate
  obtain rfl : hbarRate = rate := by simpa using hrate
  subst hs
  have d1 : (Party.treasury = Party.network) = False := eq_false (by decide)
  have d2 : (Party.renter = Party.network) = False := eq_false (by decide)
  have d3 : (Party.network = Party.treasury) = False := eq_false (by decide)
  have d4 : (Party.renter = Party.treasury) = False := eq_false (by decide)
  have d5 : (Party.network = Party.renter) = False := eq_false (by decide)
  have d6 : (Party.treasury = Party.renter) = False := eq_false (by decide)
  have hnet : creditTo (timeoutSettlement r0 hbarRate) .network
      = toTinybars (r0.usageBufferUsd * network_contribution / hbarRate) := by
    simp only [creditTo, timeoutSettlement, List.filter_cons, List.filter_nil,
      decide_eq_true_eq, eq_self_iff_true, d1, d2, if_true, if_false,
      List.map_cons, List.map_nil, List.sum_cons, List.sum_nil, add_zero]
    rw [(minimalFee_cancel r0.usageBufferUsd hbarRate).1]
  have htre : creditTo (timeoutSettlement r0 hbarRate) .treasury
      = toTinybars (r0.usageBufferUsd * atp_treasury / hbarRate) := by
    simp only [creditTo, timeoutSettlement, List.filter_cons, List.filter_nil,
      decide_eq_true_eq, eq_self_iff_true, d3, d4, if_true, if_false,
      List.map_cons, List.map_nil, List.sum_cons, List.sum_nil, add_zero]
    rw [(minimalFee_cancel r0.usageBufferUsd hbarRate).2]
  refine ⟨hnet, htre, ?_, ?_, ?_, ?_⟩
  · simp [creditTo, timeoutSettlement]
  · simp [creditTo, timeoutSettlement]
  · simp [timeoutSettlement]
  · rw [hnet, htre]
    simp only [creditTo, timeoutSettlement, List.filter_cons, List.filter_nil,
      decide_eq_true_eq, eq_self_iff_true, d5, d6, if_true, if_false,
      List.map_cons, List.map_nil, List.sum_cons, List.sum_nil, add_zero]
    rw [(minimalFee_cancel r0.usageBufferUsd hbarRate).1,
      (minimalFee_cancel r0.usageBufferUsd hbarRate).2]

/-- Witness for C10: the sample claimTimeout run charges the tinybar value
of 20 HBAR to the network and 10 HBAR to the treasury, exactly 2 and 1
percent of the 100 USD buffer at rate 0.10, with the remainder refunded to
the renter. -/
theorem claimTimeout_minimal_fee_witness :
    creditTo sampleTimeoutRes .network
      = toTinybars (sampleRental.usageBufferUsd * network_contribution / (1/10))
    ∧ creditTo sampleTimeoutRes .treasury
      = toTinybars (sampleRental.usageBufferUsd * atp_treasury / (1/10))
    ∧ creditTo sampleTimeoutRes .owner = 0
    ∧ creditTo sampleTimeoutRes .creator = 0
    ∧ creditTo sampleTimeoutRes .renter
      = toTinybars (sampleRental.stakeHbar + sampleRental.usageBufferHbar)
        - creditTo sampleTimeoutRes .network
        - creditTo sampleTimeoutRes .treasury := by
  have hget : sampleStore.get "rental_1" = some sampleRental := by
    simp [RentalStore.get, sampleStore, lookupRental]
  have hsucc : claimTimeoutOp "0.0.1001" sampleStore "rental_1" sampleEnv
      = (sampleStore.complete "rental_1" .timed_out 1000000,
          .ok sampleTimeoutRes) := by
    have hlen0 : ¬ ("rental_1".length = 0) := by decide
    have hlen1 : ¬ (100 < "rental_1".length) := by decide
    simp only [claimTimeoutOp, getStatusOp, RentalStore.get,
      RentalStore.complete, RentalStore.save, sampleStore, sampleRental,
      sampleEnv, lookupRental, setRental, timeoutSettlement, sampleTimeoutRes,
      hlen0, hlen1]
    norm_num
  have h := claimTimeout_minimal_fee "0.0.1001" sampleStore "rental_1"
    sampleEnv _ sampleTimeoutRes sampleRental (1/10) hget rfl hsucc
  exact ⟨h.1, h.2.1, h.2.2.1, h.2.2.2.1, h.2.2.2.2.2⟩

theorem mkBudgetMonitor_ok_elim {b bh w c : ℚ} {m0 : BudgetMonitor}
    (h : mkBudgetMonitor b bh w c = .ok m0) :
    m0 = { bufferUsd := b, bufferHbar := bh, warningThreshold := w
         , criticalThreshold := c, usageEvents := []
         , totalInstructions := 0, totalTokens := 0, totalCostUsd := 0 }
    ∧ 0 ≤ b ∧ 0 ≤ w ∧ w < c ∧ c ≤ 1 := by
  unfold mkBudgetMonitor at h
  split at h
  · exact absurd h (by simp)
  next h1 =>
  split at h
  · exact absurd h (by simp)
  split at h
  · exact absurd h (by simp)
  next h3 =>
  split at h
  · exact absurd h (by simp)
  next h4 =>
  split at h
  · exact absurd h (by simp)
  next h5 =>
  have hm := (Except.ok.injEq _ _).mp h
  refine ⟨hm.symm, by linarith [not_lt.mp h1], ?_, not_le.mp h5, ?_⟩
  · rcases not_or.mp h3 with ⟨hw0, _⟩
    linarith [not_lt.mp hw0]
  · rcases not_or.mp h4 with ⟨_, hc1⟩
    linarith [not_lt.mp hc1]

theorem recordUsage_ok_elim {m : BudgetMonitor} {c t i : ℚ} {now : ℕ}
    {m' : BudgetMonitor} (h : m.recordUsage c t i now = .ok m') :
    m'.totalCostUsd = m.totalCostUsd + c
    ∧ m'.bufferUsd = m.bufferUsd
    ∧ m'.warningThreshold = m.warningThreshold
    ∧ m'.criticalThreshold = m.criticalThreshold := by
  unfold BudgetMonitor.recordUsage at h
  split at h
  · exact absurd h (by simp)
  split at h
  · exact absurd h (by simp)
  split at h
  · exact absurd h (by simp)
  have hm := (Except.ok.injEq _ _).mp h
  rw [← hm]
  exact ⟨rfl, rfl, rfl, rfl⟩

theorem recordAll_ok_elim {evs : List (ℚ × ℚ × ℚ)} :
    ∀ {m : BudgetMonitor} {now : ℕ} {m' : BudgetMonitor},
    recordAll m evs now = .ok m' →
    m'.totalCostUsd = m.totalCostUsd + sumCosts evs
    ∧ m'.bufferUsd = m.bufferUsd
    ∧ m'.warningThreshold = m.warningThreshold
    ∧ m'.criticalThreshold = m.criticalThreshold := by
  induction evs with
  | nil =>
      intro m now m' h
      unfold recordAll at h
      have hm : m' = m := by simpa using h.symm
      rw [hm]
      simp [sumCosts]
  | cons hd tl ih =>
      intro m now m' h
      obtain ⟨ch, th, ih2⟩ := hd
      unfold recordAll at h
      split at h
      · exact absurd h (by simp)
      next mm hmm =>
      obtain ⟨h1, h2, h3, h4⟩ := recordUsage_ok_elim hmm
      obtain ⟨g1, g2, g3, g4⟩ := ih h
      refine ⟨?_, by rw [g2, h2], by rw [g3, h3], by rw [g4, h4]⟩
      rw [g1, h1]
      simp [sumCosts]
      ring

/-- C8: for a monitor built with buffer b and thresholds w below c, after
any accepted sequence of usage events totaling u, getStatus reports used =
u, remaining = max 0 (b - u) which is never negative, percentUsed = u / b
when the buffer is non-zero, and the level is ok below w, warning in
[w, c), critical in [c, 1) and exhausted at or above 1; with b = 0 any
positive usage is immediately exhausted. -/
theorem budgetMonitor_status_correct :
    ∀ (b bh w c : ℚ) (m0 : BudgetMonitor) (evs : List (ℚ × ℚ × ℚ)) (now : ℕ)
      (m : BudgetMonitor),
      mkBudgetMonitor b bh w c = .ok m0 →
      recordAll m0 evs now = .ok m →
        m.getStatus.usedUsd = sumCosts evs
        ∧ m.getStatus.remainingUsd = max 0 (b - sumCosts evs)
        ∧ 0 ≤ m.getStatus.remainingUsd
        ∧ (b ≠ 0 → m.getStatus.percentUsed = some (sumCosts evs / b))
        ∧ (b ≠ 0 → sumCosts evs / b < w → m.getStatus.level = .ok)
        ∧ (b ≠ 0 → w ≤ sumCosts evs / b → sumCosts evs / b < c →
            m.getStatus.level = .warning)
        ∧ (b ≠ 0 → c ≤ sumCosts evs / b → sumCosts evs / b < 1 →
            m.getStatus.level = .critical)
        ∧ (b ≠ 0 → 1 ≤ sumCosts evs / b → m.getStatus.level = .exhausted)
        ∧ (b = 0 → 0 < sumCosts evs → m.getStatus.level = .exhausted) := by
  intro b bh w c m0 evs now m hmk hrec
  obtain ⟨hm0, hb, hw, hwc, hc1⟩ := mkBudgetMonitor_ok_elim hmk
  subst hm0
  obtain ⟨hcost, hbuf, hwth, hcth⟩ := recordAll_ok_elim hrec
  simp only at hcost hbuf hwth hcth
  rw [zero_add] at hcost
  have hused : m.getStatus.usedUsd = sumCosts evs := by
    simp [BudgetMonitor.getStatus, hcost]
  have hrem : m.getStatus.remainingUsd = max 0 (b - sumCosts evs) := by
    simp [BudgetMonitor.getStatus, hcost, hbuf]
  refine ⟨hused, hrem, by rw [hrem]; exact le_max_left 0 _, ?_, ?_, ?_, ?_, ?_, ?_⟩
  · intro hb0
    simp [BudgetMonitor.getStatus, hcost, hbuf, hb0]
  · intro hb0 hlt
    have h1 : ¬ (1 : ℚ) ≤ sumCosts evs / b := by linarith
    have h2 : ¬ c ≤ sumCosts evs / b := by linarith
    have h3 : ¬ w ≤ sumCosts evs / b := by linarith
    simp [BudgetMonitor.getStatus, hcost, hbuf, hwth, hcth, hb0, h1, h2, h3]
  · intro hb0 hge hlt
    have h1 : ¬ (1 : ℚ) ≤ sumCosts evs / b := by linarith
    have h2 : ¬ c ≤ sumCosts evs / b := by linarith
    simp [BudgetMonitor.getStatus, hcost, hbuf, hwth, hcth, hb0, h1, h2, hge]
  · intro hb0 hge hlt
    have h1 : ¬ (1 : ℚ) ≤ sumCosts evs / b := by linarith
    simp [BudgetMonitor.getStatus, hcost, hbuf, hwth, hcth, hb0, h1, hge]
  · intro hb0 hge
    simp [BudgetMonitor.getStatus, hcost, hbuf, hwth, hcth, hb0, hge]
  · intro hb0 hpos
    simp [BudgetMonitor.getStatus, hcost, hbuf, hb0, hpos]

/-- Witness for C8: the pinned boundary table of the spec on a monitor
with buffer 100, warning 0.8 and critical 0.95 — usage of exactly 80
yields warning, 95 critical, 100 exhausted, and 150 exhausted with zero
remaining. -/
theorem budgetMonitor_status_witness :
    (bmAfter 80).getStatus.level = .warning
    ∧ (bmAfter 95).getStatus.level = .critical
    ∧ (bmAfter 100).getStatus.level = .exhausted
    ∧ (bmAfter 150).getStatus.level = .exhausted
    ∧ (bmAfter 150).getStatus.remainingUsd = 0 := by
  have hmk : mkBudgetMonitor 100 5 (8/10) (95/100) = .ok bmInit := by
    norm_num [mkBudgetMonitor, bmInit]
  have hrec80 : recordAll bmInit [(80, 0, 1)] 0 = .ok (bmAfter 80) := by
    norm_num [recordAll, BudgetMonitor.recordUsage, bmInit, bmAfter, Rat.isInt]
  have hrec95 : recordAll bmInit [(95, 0, 1)] 0 = .ok (bmAfter 95) := by
    norm_num [recordAll, BudgetMonitor.recordUsage, bmInit, bmAfter, Rat.isInt]
  have hrec100 : recordAll bmInit [(100, 0, 1)] 0 = .ok (bmAfter 100) := by
    norm_num [recordAll, BudgetMonitor.recordUsage, bmInit, bmAfter, Rat.isInt]
  have hrec150 : recordAll bmInit [(150, 0, 1)] 0 = .ok (bmAfter 150) := by
    norm_num [recordAll, BudgetMonitor.recordUsage, bmInit, bmAfter, Rat.isInt]
  have h80 := budgetMonitor_status_correct 100 5 (8/10) (95/100) bmInit
    [(80, 0, 1)] 0 (bmAfter 80) hmk hrec80
  have h95 := budgetMonitor_status_correct 100 5 (8/10) (95/100) bmInit
    [(95, 0, 1)] 0 (bmAfter 95) hmk hrec95
  have h100 := budgetMonitor_status_correct 100 5 (8/10) (95/100) bmInit
    [(100, 0, 1)] 0 (bmAfter 100) hmk hrec100
  have h150 := budgetMonitor_status_correct 100 5 (8/10) (95/100) bmInit
    [(150, 0, 1)] 0 (bmAfter 150) hmk hrec150
  refine ⟨?_, ?_, ?_, ?_, ?_⟩
  · exact h80.2.2.2.2.2.1 (by norm_num) (by norm_num [sumCosts])
      (by norm_num [sumCosts])
  · exact h95.2.2.2.2.2.2.1 (by norm_num) (by norm_num [sumCosts])
      (by norm_num [sumCosts])
  · exact h100.2.2.2.2.2.2.2.1 (by norm_num) (by norm_num [sumCosts])
  · exact h150.2.2.2.2.2.2.2.1 (by norm_num) (by norm_num [sumCosts])
  · rw [h150.2.1]
    norm_num [sumCosts]

theorem sanityFetch_ok {raw : Option ℚ} {r : ℚ} (h : sanityFetch raw = some r) :
    minSanePrice ≤ r ∧ r ≤ maxSanePrice := by
  unfold sanityFetch at h
  split at h
  · exact absurd h (by simp)
  split at h
  · exact absurd h (by simp)
  next hcond =>
  obtain rfl := (Option.some.injEq _ _).mp h
  rcases not_or.mp hcond with ⟨h1, h2⟩
  exact ⟨not_lt.mp h1, not_lt.mp h2⟩

theorem fetchCascade_result_sane {svc : ExchangeRateService} {now : ℕ}
    {cg bn : Option ℚ} {r : ℚ} (hs : rateServiceSane svc)
    (hr : (fetchCascade svc now cg bn).2 = some r) :
    minSanePrice ≤ r ∧ r ≤ maxSanePrice := by
  unfold fetchCascade at hr
  split at hr
  next r1 hcg =>
    obtain rfl : r1 = r := by simpa using hr
    exact sanityFetch_ok hcg
  next hcg =>
  split at hr
  next r2 hbn =>
    obtain rfl : r2 = r := by simpa using hr
    exact sanityFetch_ok hbn
  next hbn =>
  split at hr
  next ca hc =>
    split at hr
    · obtain rfl : ca.rate = r := by simpa using hr
      exact hs.1 ca hc
    · exact absurd hr (by simp)
  next hc => exact absurd hr (by simp)

theorem fetchCascade_state_sane {svc : ExchangeRateService} {now : ℕ}
    {cg bn : Option ℚ} (hs : rateServiceSane svc) :
    rateServiceSane (fetchCascade svc now cg bn).1 := by
  constructor
  · intro ca hca
    unfold fetchCascade at hca
    split at hca
    next r1 hcg =>
      obtain rfl : { rate := r1, timestamp := now
                   , source := RateSource.coingecko : RateCache } = ca := by
        simpa using hca
      exact sanityFetch_ok hcg
    next hcg =>
    split at hca
    next r2 hbn =>
      obtain rfl : { rate := r2, timestamp := now
                   , source := RateSource.binance : RateCache } = ca := by
        simpa using hca
      exact sanityFetch_ok hbn
    next hbn =>
    split at hca
    next ca0 hc =>
      split at hca
      · exact hs.1 ca (by simpa using hca)
      · exact hs.1 ca (by simpa using hca)
    next hc => exact hs.1 ca (by simpa using hca)
  · intro t ht
    unfold fetchCascade at ht
    split at ht
    next r1 hcg => exact hs.2 t (by simpa using ht)
    next hcg =>
    split at ht
    next r2 hbn => exact hs.2 t (by simpa using ht)
    next hbn =>
    split at ht
    next ca0 hc =>
      split at ht
      · exact hs.2 t (by simpa using ht)
      · exact hs.2 t (by simpa using ht)
    next hc => exact hs.2 t (by simpa using ht)

theorem getRate_result_sane {svc : ExchangeRateService} {now : ℕ}
    {cg bn : Option ℚ} {r : ℚ} (hs : rateServiceSane svc)
    (hr : (ExchangeRateService.getRate svc now cg bn).2 = some r) :
    minSanePrice ≤ r ∧ r ≤ maxSanePrice := by
  unfold ExchangeRateService.getRate at hr
  split at hr
  next t ht =>
    obtain rfl : t = r := by simpa using hr
    exact hs.2 t ht
  next ht =>
  split at hr
  next ca hc =>
    split at hr
    · obtain rfl : ca.rate = r := by simpa using hr
      exact hs.1 ca hc
    · exact fetchCascade_result_sane hs hr
  next hc => exact fetchCascade_result_sane hs hr

theorem getRate_state_sane {svc : ExchangeRateService} {now : ℕ}
    {cg bn : Option ℚ} (hs : rateServiceSane svc) :
    rateServiceSane (ExchangeRateService.getRate svc now cg bn).1 := by
  unfold ExchangeRateService.getRate
  split
  next t ht => exact hs
  next ht =>
  split
  next ca hc =>
    split
    · exact hs
    · exact fetchCascade_state_sane hs
  next hc => exact fetchCascade_state_sane hs

/-- C9: every rate getRate returns — test override, fresh cache, a
primary or secondary fetch, or a stale cache — lies within the plausible
range from minSanePrice to maxSanePrice, the service state never stores an
out-of-range rate, setTestRate refuses out-of-range overrides, and the
freshly constructed service is in range. -/
theorem exchangeRate_sane_range :
    (∀ svc now cg bn, rateServiceSane svc →
        (∀ r, (ExchangeRateService.getRate svc now cg bn).2 = some r →
            minSanePrice ≤ r ∧ r ≤ maxSanePrice)
        ∧ rateServiceSane (ExchangeRateService.getRate svc now cg bn).1)
    ∧ (∀ svc rate svc', rateServiceSane svc →
        ExchangeRateService.setTestRate svc rate = .ok svc' →
          rateServiceSane svc')
    ∧ rateServiceSane initialRateService := by
  refine ⟨?_, ?_, ?_⟩
  · intro svc now cg bn hs
    exact ⟨fun r hr => getRate_result_sane hs hr, getRate_state_sane hs⟩
  · intro svc rate svc' hs h
    unfold ExchangeRateService.setTestRate at h
    split at h
    · exact absurd h (by simp)
    next hcond =>
    have hsvc := (Except.ok.injEq _ _).mp h
    rw [← hsvc]
    refine ⟨hs.1, ?_⟩
    intro t ht
    obtain rfl : rate = t := by simpa using ht
    rcases not_or.mp hcond with ⟨h1, h2⟩
    exact ⟨not_lt.mp h1, not_lt.mp h2⟩
  · exact ⟨fun c hc => by simp [initialRateService] at hc,
      fun t ht => by simp [initialRateService] at ht⟩

/-- Witness for C9: a fresh service fetching a CoinGecko rate of 0.25
returns that rate, which lies inside the plausible range. -/
theorem exchangeRate_sane_range_witness :
    (ExchangeRateService.getRate initialRateService 0 (some (1/4)) none).2
      = some (1/4)
    ∧ minSanePrice ≤ (1/4 : ℚ) ∧ (1/4 : ℚ) ≤ maxSanePrice
    ∧ rateServiceSane initialRateService := by
  have heval : (ExchangeRateService.getRate initialRateService 0
      (some (1/4)) none).2 = some (1/4) := by
    norm_num [ExchangeRateService.getRate, initialRateService, fetchCascade,
      sanityFetch, minSanePrice, maxSanePrice]
  have hsane := exchangeRate_sane_range.2.2
  have hb := (exchangeRate_sane_range.1 initialRateService 0 (some (1/4)) none
    hsane).1 (1/4) heval
  exact ⟨heval, hb.1, hb.2, hsane⟩

end ATP
